import Mathlib

/-! # Question list controller and chat session controller

A shallow embedding of `src/my-app/src/routes/FindQuestion.jsx` (the question
list: filter, remove, reorder, expand) and of `src/my-app/src/Chat.jsx` (the
chat transcript), followed by the properties proved about them.

React state is modelled by explicit state passing: every `useState` cell is a
field of a structure and every handler is a function from the state before the
event to the state after it.
-/

namespace FindQuestion

/-! ## Strings: the JavaScript string methods the component calls -/

/-- The simple lower-case mappings of the Unicode Character Database (version
14.0), as rules `(first, last, step, image of first)`: every code point
`first + k * step` up to `last` maps to `image of first + k * step`. U+03A3 and
U+0130 are not listed: `lowerCaseAt` treats them. -/
def lowerCaseRules : List (Nat × Nat × Nat × Nat) :=
  [(0x0041, 0x005A, 1, 0x0061), (0x00C0, 0x00D6, 1, 0x00E0), (0x00D8, 0x00DE, 1, 0x00F8),
   (0x0100, 0x012E, 2, 0x0101), (0x0132, 0x0136, 2, 0x0133), (0x0139, 0x0147, 2, 0x013A),
   (0x014A, 0x0176, 2, 0x014B), (0x0178, 0x0178, 1, 0x00FF), (0x0179, 0x017D, 2, 0x017A),
   (0x0181, 0x0181, 1, 0x0253), (0x0182, 0x0184, 2, 0x0183), (0x0186, 0x0186, 1, 0x0254),
   (0x0187, 0x0187, 1, 0x0188), (0x0189, 0x018A, 1, 0x0256), (0x018B, 0x018B, 1, 0x018C),
   (0x018E, 0x018E, 1, 0x01DD), (0x018F, 0x018F, 1, 0x0259), (0x0190, 0x0190, 1, 0x025B),
   (0x0191, 0x0191, 1, 0x0192), (0x0193, 0x0193, 1, 0x0260), (0x0194, 0x0194, 1, 0x0263),
   (0x0196, 0x0196, 1, 0x0269), (0x0197, 0x0197, 1, 0x0268), (0x0198, 0x0198, 1, 0x0199),
   (0x019C, 0x019C, 1, 0x026F), (0x019D, 0x019D, 1, 0x0272), (0x019F, 0x019F, 1, 0x0275),
   (0x01A0, 0x01A4, 2, 0x01A1), (0x01A6, 0x01A6, 1, 0x0280), (0x01A7, 0x01A7, 1, 0x01A8),
   (0x01A9, 0x01A9, 1, 0x0283), (0x01AC, 0x01AC, 1, 0x01AD), (0x01AE, 0x01AE, 1, 0x0288),
   (0x01AF, 0x01AF, 1, 0x01B0), (0x01B1, 0x01B2, 1, 0x028A), (0x01B3, 0x01B5, 2, 0x01B4),
   (0x01B7, 0x01B7, 1, 0x0292), (0x01B8, 0x01B8, 1, 0x01B9), (0x01BC, 0x01BC, 1, 0x01BD),
   (0x01C4, 0x01C4, 1, 0x01C6), (0x01C5, 0x01C5, 1, 0x01C6), (0x01C7, 0x01C7, 1, 0x01C9),
   (0x01C8, 0x01C8, 1, 0x01C9), (0x01CA, 0x01CA, 1, 0x01CC), (0x01CB, 0x01DB, 2, 0x01CC),
   (0x01DE, 0x01EE, 2, 0x01DF), (0x01F1, 0x01F1, 1, 0x01F3), (0x01F2, 0x01F4, 2, 0x01F3),
   (0x01F6, 0x01F6, 1, 0x0195), (0x01F7, 0x01F7, 1, 0x01BF), (0x01F8, 0x021E, 2, 0x01F9),
   (0x0220, 0x0220, 1, 0x019E), (0x0222, 0x0232, 2, 0x0223), (0x023A, 0x023A, 1, 0x2C65),
   (0x023B, 0x023B, 1, 0x023C), (0x023D, 0x023D, 1, 0x019A), (0x023E, 0x023E, 1, 0x2C66),
   (0x0241, 0x0241, 1, 0x0242), (0x0243, 0x0243, 1, 0x0180), (0x0244, 0x0244, 1, 0x0289),
   (0x0245, 0x0245, 1, 0x028C), (0x0246, 0x024E, 2, 0x0247), (0x0370, 0x0372, 2, 0x0371),
   (0x0376, 0x0376, 1, 0x0377), (0x037F, 0x037F, 1, 0x03F3), (0x0386, 0x0386, 1, 0x03AC),
   (0x0388, 0x038A, 1, 0x03AD), (0x038C, 0x038C, 1, 0x03CC), (0x038E, 0x038F, 1, 0x03CD),
   (0x0391, 0x03A1, 1, 0x03B1), (0x03A4, 0x03AB, 1, 0x03C4), (0x03CF, 0x03CF, 1, 0x03D7),
   (0x03D8, 0x03EE, 2, 0x03D9), (0x03F4, 0x03F4, 1, 0x03B8), (0x03F7, 0x03F7, 1, 0x03F8),
   (0x03F9, 0x03F9, 1, 0x03F2), (0x03FA, 0x03FA, 1, 0x03FB), (0x03FD, 0x03FF, 1, 0x037B),
   (0x0400, 0x040F, 1, 0x0450), (0x0410, 0x042F, 1, 0x0430), (0x0460, 0x0480, 2, 0x0461),
   (0x048A, 0x04BE, 2, 0x048B), (0x04C0, 0x04C0, 1, 0x04CF), (0x04C1, 0x04CD, 2, 0x04C2),
   (0x04D0, 0x052E, 2, 0x04D1), (0x0531, 0x0556, 1, 0x0561), (0x10A0, 0x10C5, 1, 0x2D00),
   (0x10C7, 0x10C7, 1, 0x2D27), (0x10CD, 0x10CD, 1, 0x2D2D), (0x13A0, 0x13EF, 1, 0xAB70),
   (0x13F0, 0x13F5, 1, 0x13F8), (0x1C90, 0x1CBA, 1, 0x10D0), (0x1CBD, 0x1CBF, 1, 0x10FD),
   (0x1E00, 0x1E94, 2, 0x1E01), (0x1E9E, 0x1E9E, 1, 0x00DF), (0x1EA0, 0x1EFE, 2, 0x1EA1),
   (0x1F08, 0x1F0F, 1, 0x1F00), (0x1F18, 0x1F1D, 1, 0x1F10), (0x1F28, 0x1F2F, 1, 0x1F20),
   (0x1F38, 0x1F3F, 1, 0x1F30), (0x1F48, 0x1F4D, 1, 0x1F40), (0x1F59, 0x1F5F, 2, 0x1F51),
   (0x1F68, 0x1F6F, 1, 0x1F60), (0x1F88, 0x1F8F, 1, 0x1F80), (0x1F98, 0x1F9F, 1, 0x1F90),
   (0x1FA8, 0x1FAF, 1, 0x1FA0), (0x1FB8, 0x1FB9, 1, 0x1FB0), (0x1FBA, 0x1FBB, 1, 0x1F70),
   (0x1FBC, 0x1FBC, 1, 0x1FB3), (0x1FC8, 0x1FCB, 1, 0x1F72), (0x1FCC, 0x1FCC, 1, 0x1FC3),
   (0x1FD8, 0x1FD9, 1, 0x1FD0), (0x1FDA, 0x1FDB, 1, 0x1F76), (0x1FE8, 0x1FE9, 1, 0x1FE0),
   (0x1FEA, 0x1FEB, 1, 0x1F7A), (0x1FEC, 0x1FEC, 1, 0x1FE5), (0x1FF8, 0x1FF9, 1, 0x1F78),
   (0x1FFA, 0x1FFB, 1, 0x1F7C), (0x1FFC, 0x1FFC, 1, 0x1FF3), (0x2126, 0x2126, 1, 0x03C9),
   (0x212A, 0x212A, 1, 0x006B), (0x212B, 0x212B, 1, 0x00E5), (0x2132, 0x2132, 1, 0x214E),
   (0x2160, 0x216F, 1, 0x2170), (0x2183, 0x2183, 1, 0x2184), (0x24B6, 0x24CF, 1, 0x24D0),
   (0x2C00, 0x2C2F, 1, 0x2C30), (0x2C60, 0x2C60, 1, 0x2C61), (0x2C62, 0x2C62, 1, 0x026B),
   (0x2C63, 0x2C63, 1, 0x1D7D), (0x2C64, 0x2C64, 1, 0x027D), (0x2C67, 0x2C6B, 2, 0x2C68),
   (0x2C6D, 0x2C6D, 1, 0x0251), (0x2C6E, 0x2C6E, 1, 0x0271), (0x2C6F, 0x2C6F, 1, 0x0250),
   (0x2C70, 0x2C70, 1, 0x0252), (0x2C72, 0x2C72, 1, 0x2C73), (0x2C75, 0x2C75, 1, 0x2C76),
   (0x2C7E, 0x2C7F, 1, 0x023F), (0x2C80, 0x2CE2, 2, 0x2C81), (0x2CEB, 0x2CED, 2, 0x2CEC),
   (0x2CF2, 0x2CF2, 1, 0x2CF3), (0xA640, 0xA66C, 2, 0xA641), (0xA680, 0xA69A, 2, 0xA681),
   (0xA722, 0xA72E, 2, 0xA723), (0xA732, 0xA76E, 2, 0xA733), (0xA779, 0xA77B, 2, 0xA77A),
   (0xA77D, 0xA77D, 1, 0x1D79), (0xA77E, 0xA786, 2, 0xA77F), (0xA78B, 0xA78B, 1, 0xA78C),
   (0xA78D, 0xA78D, 1, 0x0265), (0xA790, 0xA792, 2, 0xA791), (0xA796, 0xA7A8, 2, 0xA797),
   (0xA7AA, 0xA7AA, 1, 0x0266), (0xA7AB, 0xA7AB, 1, 0x025C), (0xA7AC, 0xA7AC, 1, 0x0261),
   (0xA7AD, 0xA7AD, 1, 0x026C), (0xA7AE, 0xA7AE, 1, 0x026A), (0xA7B0, 0xA7B0, 1, 0x029E),
   (0xA7B1, 0xA7B1, 1, 0x0287), (0xA7B2, 0xA7B2, 1, 0x029D), (0xA7B3, 0xA7B3, 1, 0xAB53),
   (0xA7B4, 0xA7C2, 2, 0xA7B5), (0xA7C4, 0xA7C4, 1, 0xA794), (0xA7C5, 0xA7C5, 1, 0x0282),
   (0xA7C6, 0xA7C6, 1, 0x1D8E), (0xA7C7, 0xA7C9, 2, 0xA7C8), (0xA7D0, 0xA7D0, 1, 0xA7D1),
   (0xA7D6, 0xA7D8, 2, 0xA7D7), (0xA7F5, 0xA7F5, 1, 0xA7F6), (0xFF21, 0xFF3A, 1, 0xFF41),
   (0x10400, 0x10427, 1, 0x10428), (0x104B0, 0x104D3, 1, 0x104D8),
   (0x10570, 0x1057A, 1, 0x10597), (0x1057C, 0x1058A, 1, 0x105A3),
   (0x1058C, 0x10592, 1, 0x105B3), (0x10594, 0x10595, 1, 0x105BB),
   (0x10C80, 0x10CB2, 1, 0x10CC0), (0x118A0, 0x118BF, 1, 0x118C0),
   (0x16E40, 0x16E5F, 1, 0x16E60), (0x1E900, 0x1E921, 1, 0x1E922)]

/-- The code points with the property Cased that are not Case_Ignorable, as
ranges `(first, last)`. -/
def casedRanges : List (Nat × Nat) :=
  [(0x0041, 0x005A), (0x0061, 0x007A), (0x00AA, 0x00AA), (0x00B5, 0x00B5), (0x00BA, 0x00BA),
   (0x00C0, 0x00D6), (0x00D8, 0x00F6), (0x00F8, 0x01BA), (0x01BC, 0x01BF), (0x01C4, 0x0293),
   (0x0295, 0x02AF), (0x0370, 0x0373), (0x0376, 0x0377), (0x037B, 0x037D), (0x037F, 0x037F),
   (0x0386, 0x0386), (0x0388, 0x038A), (0x038C, 0x038C), (0x038E, 0x03A1), (0x03A3, 0x03F5),
   (0x03F7, 0x0481), (0x048A, 0x052F), (0x0531, 0x0556), (0x0560, 0x0588), (0x10A0, 0x10C5),
   (0x10C7, 0x10C7), (0x10CD, 0x10CD), (0x10D0, 0x10FA), (0x10FD, 0x10FF), (0x13A0, 0x13F5),
   (0x13F8, 0x13FD), (0x1C80, 0x1C88), (0x1C90, 0x1CBA), (0x1CBD, 0x1CBF), (0x1D00, 0x1D2B),
   (0x1D6B, 0x1D77), (0x1D79, 0x1D9A), (0x1E00, 0x1F15), (0x1F18, 0x1F1D), (0x1F20, 0x1F45),
   (0x1F48, 0x1F4D), (0x1F50, 0x1F57), (0x1F59, 0x1F59), (0x1F5B, 0x1F5B), (0x1F5D, 0x1F5D),
   (0x1F5F, 0x1F7D), (0x1F80, 0x1FB4), (0x1FB6, 0x1FBC), (0x1FBE, 0x1FBE), (0x1FC2, 0x1FC4),
   (0x1FC6, 0x1FCC), (0x1FD0, 0x1FD3), (0x1FD6, 0x1FDB), (0x1FE0, 0x1FEC), (0x1FF2, 0x1FF4),
   (0x1FF6, 0x1FFC), (0x2102, 0x2102), (0x2107, 0x2107), (0x210A, 0x2113), (0x2115, 0x2115),
   (0x2119, 0x211D), (0x2124, 0x2124), (0x2126, 0x2126), (0x2128, 0x2128), (0x212A, 0x212D),
   (0x212F, 0x2134), (0x2139, 0x2139), (0x213C, 0x213F), (0x2145, 0x2149), (0x214E, 0x214E),
   (0x2160, 0x217F), (0x2183, 0x2184), (0x24B6, 0x24E9), (0x2C00, 0x2C7B), (0x2C7E, 0x2CE4),
   (0x2CEB, 0x2CEE), (0x2CF2, 0x2CF3), (0x2D00, 0x2D25), (0x2D27, 0x2D27), (0x2D2D, 0x2D2D),
   (0xA640, 0xA66D), (0xA680, 0xA69B), (0xA722, 0xA76F), (0xA771, 0xA787), (0xA78B, 0xA78E),
   (0xA790, 0xA7CA), (0xA7D0, 0xA7D1), (0xA7D3, 0xA7D3), (0xA7D5, 0xA7D9), (0xA7F5, 0xA7F6),
   (0xA7FA, 0xA7FA), (0xAB30, 0xAB5A), (0xAB60, 0xAB68), (0xAB70, 0xABBF), (0xFB00, 0xFB06),
   (0xFB13, 0xFB17), (0xFF21, 0xFF3A), (0xFF41, 0xFF5A), (0x10400, 0x1044F), (0x104B0, 0x104D3),
   (0x104D8, 0x104FB), (0x10570, 0x1057A), (0x1057C, 0x1058A), (0x1058C, 0x10592),
   (0x10594, 0x10595), (0x10597, 0x105A1), (0x105A3, 0x105B1), (0x105B3, 0x105B9),
   (0x105BB, 0x105BC), (0x10C80, 0x10CB2), (0x10CC0, 0x10CF2), (0x118A0, 0x118DF),
   (0x16E40, 0x16E7F), (0x1D400, 0x1D454), (0x1D456, 0x1D49C), (0x1D49E, 0x1D49F),
   (0x1D4A2, 0x1D4A2), (0x1D4A5, 0x1D4A6), (0x1D4A9, 0x1D4AC), (0x1D4AE, 0x1D4B9),
   (0x1D4BB, 0x1D4BB), (0x1D4BD, 0x1D4C3), (0x1D4C5, 0x1D505), (0x1D507, 0x1D50A),
   (0x1D50D, 0x1D514), (0x1D516, 0x1D51C), (0x1D51E, 0x1D539), (0x1D53B, 0x1D53E),
   (0x1D540, 0x1D544), (0x1D546, 0x1D546), (0x1D54A, 0x1D550), (0x1D552, 0x1D6A5),
   (0x1D6A8, 0x1D6C0), (0x1D6C2, 0x1D6DA), (0x1D6DC, 0x1D6FA), (0x1D6FC, 0x1D714),
   (0x1D716, 0x1D734), (0x1D736, 0x1D74E), (0x1D750, 0x1D76E), (0x1D770, 0x1D788),
   (0x1D78A, 0x1D7A8), (0x1D7AA, 0x1D7C2), (0x1D7C4, 0x1D7CB), (0x1DF00, 0x1DF09),
   (0x1DF0B, 0x1DF1E), (0x1E900, 0x1E943), (0x1F130, 0x1F149), (0x1F150, 0x1F169),
   (0x1F170, 0x1F189)]

/-- The code points with the property Case_Ignorable, as ranges
`(first, last)`. -/
def caseIgnorableRanges : List (Nat × Nat) :=
  [(0x0027, 0x0027), (0x002E, 0x002E), (0x003A, 0x003A), (0x005E, 0x005E), (0x0060, 0x0060),
   (0x00A8, 0x00A8), (0x00AD, 0x00AD), (0x00AF, 0x00AF), (0x00B4, 0x00B4), (0x00B7, 0x00B8),
   (0x02B0, 0x036F), (0x0374, 0x0375), (0x037A, 0x037A), (0x0384, 0x0385), (0x0387, 0x0387),
   (0x0483, 0x0489), (0x0559, 0x0559), (0x055F, 0x055F), (0x0591, 0x05BD), (0x05BF, 0x05BF),
   (0x05C1, 0x05C2), (0x05C4, 0x05C5), (0x05C7, 0x05C7), (0x05F4, 0x05F4), (0x0600, 0x0605),
   (0x0610, 0x061A), (0x061C, 0x061C), (0x0640, 0x0640), (0x064B, 0x065F), (0x0670, 0x0670),
   (0x06D6, 0x06DD), (0x06DF, 0x06E8), (0x06EA, 0x06ED), (0x070F, 0x070F), (0x0711, 0x0711),
   (0x0730, 0x074A), (0x07A6, 0x07B0), (0x07EB, 0x07F5), (0x07FA, 0x07FA), (0x07FD, 0x07FD),
   (0x0816, 0x082D), (0x0859, 0x085B), (0x0888, 0x0888), (0x0890, 0x0891), (0x0898, 0x089F),
   (0x08C9, 0x0902), (0x093A, 0x093A), (0x093C, 0x093C), (0x0941, 0x0948), (0x094D, 0x094D),
   (0x0951, 0x0957), (0x0962, 0x0963), (0x0971, 0x0971), (0x0981, 0x0981), (0x09BC, 0x09BC),
   (0x09C1, 0x09C4), (0x09CD, 0x09CD), (0x09E2, 0x09E3), (0x09FE, 0x09FE), (0x0A01, 0x0A02),
   (0x0A3C, 0x0A3C), (0x0A41, 0x0A42), (0x0A47, 0x0A48), (0x0A4B, 0x0A4D), (0x0A51, 0x0A51),
   (0x0A70, 0x0A71), (0x0A75, 0x0A75), (0x0A81, 0x0A82), (0x0ABC, 0x0ABC), (0x0AC1, 0x0AC5),
   (0x0AC7, 0x0AC8), (0x0ACD, 0x0ACD), (0x0AE2, 0x0AE3), (0x0AFA, 0x0AFF), (0x0B01, 0x0B01),
   (0x0B3C, 0x0B3C), (0x0B3F, 0x0B3F), (0x0B41, 0x0B44), (0x0B4D, 0x0B4D), (0x0B55, 0x0B56),
   (0x0B62, 0x0B63), (0x0B82, 0x0B82), (0x0BC0, 0x0BC0), (0x0BCD, 0x0BCD), (0x0C00, 0x0C00),
   (0x0C04, 0x0C04), (0x0C3C, 0x0C3C), (0x0C3E, 0x0C40), (0x0C46, 0x0C48), (0x0C4A, 0x0C4D),
   (0x0C55, 0x0C56), (0x0C62, 0x0C63), (0x0C81, 0x0C81), (0x0CBC, 0x0CBC), (0x0CBF, 0x0CBF),
   (0x0CC6, 0x0CC6), (0x0CCC, 0x0CCD), (0x0CE2, 0x0CE3), (0x0D00, 0x0D01), (0x0D3B, 0x0D3C),
   (0x0D41, 0x0D44), (0x0D4D, 0x0D4D), (0x0D62, 0x0D63), (0x0D81, 0x0D81), (0x0DCA, 0x0DCA),
   (0x0DD2, 0x0DD4), (0x0DD6, 0x0DD6), (0x0E31, 0x0E31), (0x0E34, 0x0E3A), (0x0E46, 0x0E4E),
   (0x0EB1, 0x0EB1), (0x0EB4, 0x0EBC), (0x0EC6, 0x0EC6), (0x0EC8, 0x0ECD), (0x0F18, 0x0F19),
   (0x0F35, 0x0F35), (0x0F37, 0x0F37), (0x0F39, 0x0F39), (0x0F71, 0x0F7E), (0x0F80, 0x0F84),
   (0x0F86, 0x0F87), (0x0F8D, 0x0F97), (0x0F99, 0x0FBC), (0x0FC6, 0x0FC6), (0x102D, 0x1030),
   (0x1032, 0x1037), (0x1039, 0x103A), (0x103D, 0x103E), (0x1058, 0x1059), (0x105E, 0x1060),
   (0x1071, 0x1074), (0x1082, 0x1082), (0x1085, 0x1086), (0x108D, 0x108D), (0x109D, 0x109D),
   (0x10FC, 0x10FC), (0x135D, 0x135F), (0x1712, 0x1714), (0x1732, 0x1733), (0x1752, 0x1753),
   (0x1772, 0x1773), (0x17B4, 0x17B5), (0x17B7, 0x17BD), (0x17C6, 0x17C6), (0x17C9, 0x17D3),
   (0x17D7, 0x17D7), (0x17DD, 0x17DD), (0x180B, 0x180F), (0x1843, 0x1843), (0x1885, 0x1886),
   (0x18A9, 0x18A9), (0x1920, 0x1922), (0x1927, 0x1928), (0x1932, 0x1932), (0x1939, 0x193B),
   (0x1A17, 0x1A18), (0x1A1B, 0x1A1B), (0x1A56, 0x1A56), (0x1A58, 0x1A5E), (0x1A60, 0x1A60),
   (0x1A62, 0x1A62), (0x1A65, 0x1A6C), (0x1A73, 0x1A7C), (0x1A7F, 0x1A7F), (0x1AA7, 0x1AA7),
   (0x1AB0, 0x1ACE), (0x1B00, 0x1B03), (0x1B34, 0x1B34), (0x1B36, 0x1B3A), (0x1B3C, 0x1B3C),
   (0x1B42, 0x1B42), (0x1B6B, 0x1B73), (0x1B80, 0x1B81), (0x1BA2, 0x1BA5), (0x1BA8, 0x1BA9),
   (0x1BAB, 0x1BAD), (0x1BE6, 0x1BE6), (0x1BE8, 0x1BE9), (0x1BED, 0x1BED), (0x1BEF, 0x1BF1),
   (0x1C2C, 0x1C33), (0x1C36, 0x1C37), (0x1C78, 0x1C7D), (0x1CD0, 0x1CD2), (0x1CD4, 0x1CE0),
   (0x1CE2, 0x1CE8), (0x1CED, 0x1CED), (0x1CF4, 0x1CF4), (0x1CF8, 0x1CF9), (0x1D2C, 0x1D6A),
   (0x1D78, 0x1D78), (0x1D9B, 0x1DFF), (0x1FBD, 0x1FBD), (0x1FBF, 0x1FC1), (0x1FCD, 0x1FCF),
   (0x1FDD, 0x1FDF), (0x1FED, 0x1FEF), (0x1FFD, 0x1FFE), (0x200B, 0x200F), (0x2018, 0x2019),
   (0x2024, 0x2024), (0x2027, 0x2027), (0x202A, 0x202E), (0x2060, 0x2064), (0x2066, 0x206F),
   (0x2071, 0x2071), (0x207F, 0x207F), (0x2090, 0x209C), (0x20D0, 0x20F0), (0x2C7C, 0x2C7D),
   (0x2CEF, 0x2CF1), (0x2D6F, 0x2D6F), (0x2D7F, 0x2D7F), (0x2DE0, 0x2DFF), (0x2E2F, 0x2E2F),
   (0x3005, 0x3005), (0x302A, 0x302D), (0x3031, 0x3035), (0x303B, 0x303B), (0x3099, 0x309E),
   (0x30FC, 0x30FE), (0xA015, 0xA015), (0xA4F8, 0xA4FD), (0xA60C, 0xA60C), (0xA66F, 0xA672),
   (0xA674, 0xA67D), (0xA67F, 0xA67F), (0xA69C, 0xA69F), (0xA6F0, 0xA6F1), (0xA700, 0xA721),
   (0xA770, 0xA770), (0xA788, 0xA78A), (0xA7F2, 0xA7F4), (0xA7F8, 0xA7F9), (0xA802, 0xA802),
   (0xA806, 0xA806), (0xA80B, 0xA80B), (0xA825, 0xA826), (0xA82C, 0xA82C), (0xA8C4, 0xA8C5),
   (0xA8E0, 0xA8F1), (0xA8FF, 0xA8FF), (0xA926, 0xA92D), (0xA947, 0xA951), (0xA980, 0xA982),
   (0xA9B3, 0xA9B3), (0xA9B6, 0xA9B9), (0xA9BC, 0xA9BD), (0xA9CF, 0xA9CF), (0xA9E5, 0xA9E6),
   (0xAA29, 0xAA2E), (0xAA31, 0xAA32), (0xAA35, 0xAA36), (0xAA43, 0xAA43), (0xAA4C, 0xAA4C),
   (0xAA70, 0xAA70), (0xAA7C, 0xAA7C), (0xAAB0, 0xAAB0), (0xAAB2, 0xAAB4), (0xAAB7, 0xAAB8),
   (0xAABE, 0xAABF), (0xAAC1, 0xAAC1), (0xAADD, 0xAADD), (0xAAEC, 0xAAED), (0xAAF3, 0xAAF4),
   (0xAAF6, 0xAAF6), (0xAB5B, 0xAB5F), (0xAB69, 0xAB6B), (0xABE5, 0xABE5), (0xABE8, 0xABE8),
   (0xABED, 0xABED), (0xFB1E, 0xFB1E), (0xFBB2, 0xFBC2), (0xFE00, 0xFE0F), (0xFE13, 0xFE13),
   (0xFE20, 0xFE2F), (0xFE52, 0xFE52), (0xFE55, 0xFE55), (0xFEFF, 0xFEFF), (0xFF07, 0xFF07),
   (0xFF0E, 0xFF0E), (0xFF1A, 0xFF1A), (0xFF3E, 0xFF3E), (0xFF40, 0xFF40), (0xFF70, 0xFF70),
   (0xFF9E, 0xFF9F), (0xFFE3, 0xFFE3), (0xFFF9, 0xFFFB), (0x101FD, 0x101FD), (0x102E0, 0x102E0),
   (0x10376, 0x1037A), (0x10780, 0x10785), (0x10787, 0x107B0), (0x107B2, 0x107BA),
   (0x10A01, 0x10A03), (0x10A05, 0x10A06), (0x10A0C, 0x10A0F), (0x10A38, 0x10A3A),
   (0x10A3F, 0x10A3F), (0x10AE5, 0x10AE6), (0x10D24, 0x10D27), (0x10EAB, 0x10EAC),
   (0x10F46, 0x10F50), (0x10F82, 0x10F85), (0x11001, 0x11001), (0x11038, 0x11046),
   (0x11070, 0x11070), (0x11073, 0x11074), (0x1107F, 0x11081), (0x110B3, 0x110B6),
   (0x110B9, 0x110BA), (0x110BD, 0x110BD), (0x110C2, 0x110C2), (0x110CD, 0x110CD),
   (0x11100, 0x11102), (0x11127, 0x1112B), (0x1112D, 0x11134), (0x11173, 0x11173),
   (0x11180, 0x11181), (0x111B6, 0x111BE), (0x111C9, 0x111CC), (0x111CF, 0x111CF),
   (0x1122F, 0x11231), (0x11234, 0x11234), (0x11236, 0x11237), (0x1123E, 0x1123E),
   (0x112DF, 0x112DF), (0x112E3, 0x112EA), (0x11300, 0x11301), (0x1133B, 0x1133C),
   (0x11340, 0x11340), (0x11366, 0x1136C), (0x11370, 0x11374), (0x11438, 0x1143F),
   (0x11442, 0x11444), (0x11446, 0x11446), (0x1145E, 0x1145E), (0x114B3, 0x114B8),
   (0x114BA, 0x114BA), (0x114BF, 0x114C0), (0x114C2, 0x114C3), (0x115B2, 0x115B5),
   (0x115BC, 0x115BD), (0x115BF, 0x115C0), (0x115DC, 0x115DD), (0x11633, 0x1163A),
   (0x1163D, 0x1163D), (0x1163F, 0x11640), (0x116AB, 0x116AB), (0x116AD, 0x116AD),
   (0x116B0, 0x116B5), (0x116B7, 0x116B7), (0x1171D, 0x1171F), (0x11722, 0x11725),
   (0x11727, 0x1172B), (0x1182F, 0x11837), (0x11839, 0x1183A), (0x1193B, 0x1193C),
   (0x1193E, 0x1193E), (0x11943, 0x11943), (0x119D4, 0x119D7), (0x119DA, 0x119DB),
   (0x119E0, 0x119E0), (0x11A01, 0x11A0A), (0x11A33, 0x11A38), (0x11A3B, 0x11A3E),
   (0x11A47, 0x11A47), (0x11A51, 0x11A56), (0x11A59, 0x11A5B), (0x11A8A, 0x11A96),
   (0x11A98, 0x11A99), (0x11C30, 0x11C36), (0x11C38, 0x11C3D), (0x11C3F, 0x11C3F),
   (0x11C92, 0x11CA7), (0x11CAA, 0x11CB0), (0x11CB2, 0x11CB3), (0x11CB5, 0x11CB6),
   (0x11D31, 0x11D36), (0x11D3A, 0x11D3A), (0x11D3C, 0x11D3D), (0x11D3F, 0x11D45),
   (0x11D47, 0x11D47), (0x11D90, 0x11D91), (0x11D95, 0x11D95), (0x11D97, 0x11D97),
   (0x11EF3, 0x11EF4), (0x13430, 0x13438), (0x16AF0, 0x16AF4), (0x16B30, 0x16B36),
   (0x16B40, 0x16B43), (0x16F4F, 0x16F4F), (0x16F8F, 0x16F9F), (0x16FE0, 0x16FE1),
   (0x16FE3, 0x16FE4), (0x1AFF0, 0x1AFF3), (0x1AFF5, 0x1AFFB), (0x1AFFD, 0x1AFFE),
   (0x1BC9D, 0x1BC9E), (0x1BCA0, 0x1BCA3), (0x1CF00, 0x1CF2D), (0x1CF30, 0x1CF46),
   (0x1D167, 0x1D169), (0x1D173, 0x1D182), (0x1D185, 0x1D18B), (0x1D1AA, 0x1D1AD),
   (0x1D242, 0x1D244), (0x1DA00, 0x1DA36), (0x1DA3B, 0x1DA6C), (0x1DA75, 0x1DA75),
   (0x1DA84, 0x1DA84), (0x1DA9B, 0x1DA9F), (0x1DAA1, 0x1DAAF), (0x1E000, 0x1E006),
   (0x1E008, 0x1E018), (0x1E01B, 0x1E021), (0x1E023, 0x1E024), (0x1E026, 0x1E02A),
   (0x1E130, 0x1E13D), (0x1E2AE, 0x1E2AE), (0x1E2EC, 0x1E2EF), (0x1E8D0, 0x1E8D6),
   (0x1E944, 0x1E94B), (0x1F3FB, 0x1F3FF), (0xE0001, 0xE0001), (0xE0020, 0xE007F),
   (0xE0100, 0xE01EF)]

/-- The code point of `c` lies in one of the ranges. -/
def inRanges (ranges : List (Nat × Nat)) (c : Char) : Bool :=
  ranges.any (fun r => r.1 ≤ c.toNat && c.toNat ≤ r.2)

/-- The simple lower-case mapping of one code point; code points without a
mapping are kept. -/
def simpleLowerCase (c : Char) : Char :=
  match lowerCaseRules.find?
      (fun r => r.1 ≤ c.toNat && c.toNat ≤ r.2.1 && (c.toNat - r.1) % r.2.2.1 == 0) with
  | some r => Char.ofNat (r.2.2.2 + (c.toNat - r.1))
  | none => c

/-- The first character of `cs` that is not case-ignorable is a cased
letter. -/
def casedLetterFirst (cs : List Char) : Bool :=
  match cs.dropWhile (inRanges caseIgnorableRanges) with
  | [] => false
  | c :: _ => inRanges casedRanges c

/-- The condition Final_Sigma of the Unicode special casing: a cased letter
comes before (`before` holds the preceding characters, nearest first) and none
comes after, case-ignorable characters being skipped on both sides. -/
def isFinalSigma (before after : List Char) : Bool :=
  casedLetterFirst before && !casedLetterFirst after

/-- The lower case of one code point in its context: U+03A3 becomes U+03C2 in
final position and U+03C3 elsewhere, U+0130 becomes U+0069 U+0307, every other
code point takes its simple mapping. -/
def lowerCaseAt (before : List Char) (c : Char) (after : List Char) : List Char :=
  if c.toNat = 0x03A3 then
    (if isFinalSigma before after then [Char.ofNat 0x03C2] else [Char.ofNat 0x03C3])
  else if c.toNat = 0x0130 then [Char.ofNat 0x0069, Char.ofNat 0x0307]
  else [simpleLowerCase c]

/-- The lower case of the code points `cs` that follow `before` (nearest
first). -/
def lowerCaseFrom (before : List Char) : List Char → List Char
  | [] => []
  | c :: after => lowerCaseAt before c after ++ lowerCaseFrom (c :: before) after

/-- `String.prototype.toLowerCase`: the Unicode default lower-case conversion
of the code points of the string, with the special casing that does not depend
on a language. -/
def toLowerCase (s : String) : String :=
  String.mk (lowerCaseFrom [] s.data)

/-- `String.prototype.includes`: `search` occurs in `s` at some position. -/
def includes (s search : String) : Bool :=
  s.data.tails.any (fun rest => search.data.isPrefixOf rest)

/-- `s.split(sep)[0]` for a one-character separator: the part of `s` before
the first `sep`, all of `s` when it has none. -/
def splitHead (s : String) (sep : Char) : String :=
  String.mk (s.data.takeWhile (fun c => c != sep))

/-! ## Dates: `new Date(ms).toISOString()` -/

/-- One decimal digit as a character. -/
def digitChar (d : Nat) : Char :=
  match d % 10 with
  | 0 => '0' | 1 => '1' | 2 => '2' | 3 => '3' | 4 => '4'
  | 5 => '5' | 6 => '6' | 7 => '7' | 8 => '8' | _ => '9'

/-- The last `width` decimal digits of `n`, zero padded. -/
def padDigits : Nat → Nat → List Char
  | 0, _ => []
  | width + 1, n => padDigits width (n / 10) ++ [digitChar n]

/-- The civil date `(year, month, day)` of a day number counted from
1970-01-01 in the proleptic Gregorian calendar (`YearFromTime`,
`MonthFromTime` + 1 and `DateFromTime` of ECMAScript). -/
def civilFromDays (days : Int) : Int × Nat × Nat :=
  let z := days + 719468
  let era := z / 146097
  let doe := (z - era * 146097).toNat
  let yoe := (doe - doe / 1460 + doe / 36524 - doe / 146096) / 365
  let doy := doe - (365 * yoe + yoe / 4 - yoe / 100)
  let mp := (5 * doy + 2) / 153
  let d := doy - (153 * mp + 2) / 5 + 1
  let m := if mp < 10 then mp + 3 else mp - 9
  let y := (yoe : Int) + era * 400 + (if m ≤ 2 then 1 else 0)
  (y, m, d)

/-- The year as `toISOString` prints it: four digits for the years 0 to 9999,
a sign and six digits otherwise. -/
def isoYear (y : Int) : List Char :=
  if 0 ≤ y ∧ y ≤ 9999 then padDigits 4 y.toNat
  else if 0 ≤ y then '+' :: padDigits 6 y.toNat
  else '-' :: padDigits 6 (-y).toNat

/-- The `YYYY-MM-DD` part of `toISOString` for a day number. -/
def isoDate (days : Int) : List Char :=
  let (y, m, d) := civilFromDays days
  isoYear y ++ '-' :: padDigits 2 m ++ '-' :: padDigits 2 d

/-- The `HH:mm:ss.sssZ` part of `toISOString` for the milliseconds within
the day. -/
def isoTime (msInDay : Nat) : List Char :=
  padDigits 2 (msInDay / 3600000) ++ ':' :: padDigits 2 (msInDay / 60000 % 60)
    ++ ':' :: padDigits 2 (msInDay / 1000 % 60) ++ '.' :: padDigits 3 (msInDay % 1000) ++ ['Z']

/-- `new Date(ms).toISOString()` for a time value `ms` (milliseconds since
the epoch, UTC): `YYYY-MM-DDTHH:mm:ss.sssZ`. -/
def toISOString (ms : Int) : String :=
  String.mk (isoDate (ms / 86400000) ++ 'T' :: isoTime (ms % 86400000).toNat)

/-! ## Data model -/

/-- A Firestore `Timestamp`, of which the component reads `seconds`. Its
constructor accepts the seconds of 0001-01-01T00:00:00Z up to
9999-12-31T23:59:59Z only. -/
structure Timestamp where
  seconds : Int
  lower : -62135596800 ≤ seconds
  upper : seconds < 253402300800
  deriving DecidableEq

/-- A question record as the component reads it: `{ id: doc.id, ...doc.data() }`.
`title`, `tags` and `createdAt` are fields the filter tests for presence before
use, so they may be missing (`none`); the remaining fields are only rendered. -/
structure Question where
  id : String
  title : Option String
  tags : Option (List String)
  createdAt : Option Timestamp
  description : Option String
  userEmail : Option String
  additionalInfo : Option String
  imageUrls : Option (List String)
  deriving DecidableEq

/-- The filter criteria: `useState({ title: '', tag: '', date: '' })`. -/
structure Filter where
  title : String
  tag : String
  date : String
  deriving DecidableEq

/-- The four `useState` cells of the component. -/
structure State where
  questions : List Question
  filter : Filter
  visibleQuestions : List Question
  expandedQuestionId : Option String
  deriving DecidableEq

/-! ## The filter: `filteredQuestions` -/

/-- `titleMatch`: `filter.title === '' || (question.title &&
question.title.toLowerCase().includes(filter.title.toLowerCase()))`, as its
truthiness; a missing or empty title is falsy. -/
def titleMatch (filter : Filter) (question : Question) : Bool :=
  filter.title == "" ||
    (match question.title with
     | none => false
     | some title => title != "" && includes (toLowerCase title) (toLowerCase filter.title))

/-- `tagMatch`: `filter.tag === '' || (question.tags && question.tags.some(tag
=> tag.toLowerCase().includes(filter.tag.toLowerCase())))`; an array, also an
empty one, is truthy. -/
def tagMatch (filter : Filter) (question : Question) : Bool :=
  filter.tag == "" ||
    (match question.tags with
     | none => false
     | some tags => tags.any (fun tag => includes (toLowerCase tag) (toLowerCase filter.tag)))

/-- `dateMatch`: `filter.date === '' || (question.createdAt && new
Date(question.createdAt.seconds * 1000).toISOString().split('T')[0] ===
filter.date)`. -/
def dateMatch (filter : Filter) (question : Question) : Bool :=
  filter.date == "" ||
    (match question.createdAt with
     | none => false
     | some createdAt => splitHead (toISOString (createdAt.seconds * 1000)) 'T' == filter.date)

/-- The callback of `visibleQuestions.filter(...)`:
`titleMatch && tagMatch && dateMatch`. -/
def filterCallback (filter : Filter) (question : Question) : Bool :=
  titleMatch filter question && tagMatch filter question && dateMatch filter question

/-- The displayed list, recomputed on every render from `visibleQuestions` and
`filter`. -/
def filteredQuestions (s : State) : List Question :=
  s.visibleQuestions.filter (filterCallback s.filter)

/-- The UTC calendar day, `YYYY-MM-DD`, that holds the instant `seconds` after
the epoch. -/
def utcCalendarDay (seconds : Int) : String :=
  String.mk (isoDate (seconds / 86400))

/-- The filter predicate in the words of the data model: the title filter is
empty or the question has a title that contains it, the tag filter is empty or
some tag of the question contains it (both compared in lower case), and the
date filter is empty or the UTC calendar day of `createdAt.seconds` equals it. -/
def Matches (filter : Filter) (question : Question) : Prop :=
  (filter.title = "" ∨
    ∃ title, question.title = some title ∧
      (toLowerCase filter.title).data <:+: (toLowerCase title).data) ∧
  (filter.tag = "" ∨
    ∃ tags, question.tags = some tags ∧
      ∃ tag ∈ tags, (toLowerCase filter.tag).data <:+: (toLowerCase tag).data) ∧
  (filter.date = "" ∨
    ∃ createdAt, question.createdAt = some createdAt ∧
      utcCalendarDay createdAt.seconds = filter.date)

/-! ## The handlers -/

/-- The state before the fetch resolves. -/
def initial : State :=
  { questions := [], filter := { title := "", tag := "", date := "" },
    visibleQuestions := [], expandedQuestionId := none }

/-- The two updates at the end of `fetchQuestions`:
`setQuestions(questionList); setVisibleQuestions(questionList)`. -/
def fetchQuestions (s : State) (questionList : List Question) : State :=
  { s with questions := questionList, visibleQuestions := questionList }

/-- The title input: `setFilter({ ...filter, title: value })`. -/
def setFilterTitle (s : State) (value : String) : State :=
  { s with filter := { s.filter with title := value } }

/-- The tag input: `setFilter({ ...filter, tag: value })`. -/
def setFilterTag (s : State) (value : String) : State :=
  { s with filter := { s.filter with tag := value } }

/-- The date input: `setFilter({ ...filter, date: value })`. -/
def setFilterDate (s : State) (value : String) : State :=
  { s with filter := { s.filter with date := value } }

/-- `removeQuestion(id)`: drops the visible entries with that id and collapses
the details when the removed question is the expanded one. -/
def removeQuestion (s : State) (id : String) : State :=
  let s1 := { s with visibleQuestions := s.visibleQuestions.filter (fun question => question.id != id) }
  if s.expandedQuestionId = some id then { s1 with expandedQuestionId := none } else s1

/-- `toggleExpandQuestion(id)`:
`setExpandedQuestionId(prevId => (prevId === id ? null : id))`. -/
def toggleExpandQuestion (s : State) (id : String) : State :=
  { s with expandedQuestionId := if s.expandedQuestionId = some id then none else some id }

/-- `Array.prototype.splice(start, deleteCount, ...newItems)` for
non-negative integer arguments: the removed elements and the array after the
call. `start` and `deleteCount` are clamped to the array as `take` and `drop`
clamp them. -/
def splice {α : Type} (items : List α) (start deleteCount : Nat) (newItems : List α) :
    List α × List α :=
  ((items.drop start).take deleteCount,
   items.take start ++ newItems ++ items.drop (start + deleteCount))

/-- A position in the droppable list, as the drag library reports it. -/
structure DraggableLocation where
  index : Nat
  deriving DecidableEq

/-- The argument of `onDragEnd`; `destination` is `none` when the item was
dropped outside the list. -/
structure DropResult where
  source : DraggableLocation
  destination : Option DraggableLocation
  deriving DecidableEq

/-- `onDragEnd(result)`. Without a destination nothing is set. Otherwise the
element at the source index is spliced out of a copy of `visibleQuestions`
and spliced in at the destination index. When the source index is not a
position of the array the first splice removes nothing, `reorderedItem` is
`undefined` and the second splice stores `undefined` in the array: the result
is then no list of questions, and the model returns `none`. -/
def onDragEnd (s : State) (result : DropResult) : Option State :=
  match result.destination with
  | none => some s
  | some destination =>
    let items := s.visibleQuestions
    let (removed, items1) := splice items result.source.index 1 []
    match removed.head? with
    | none => none
    | some reorderedItem =>
      let (_, items2) := splice items1 destination.index 0 [reorderedItem]
      some { s with visibleQuestions := items2 }

/-- A single-element move: `after` has at position `j` the element `before`
has at position `i`, and apart from that element the two lists are the same
list. -/
def SingleMove {α : Type} (before after : List α) (i j : Nat) : Prop :=
  after[j]? = before[i]? ∧ after.eraseIdx j = before.eraseIdx i ∧ after.length = before.length

/-- A sample record with every field the filter reads. -/
def sampleQ1 : Question :=
  { id := "q1", title := some "React hooks", tags := some ["react", "js"],
    createdAt := some ⟨1700000000, by decide, by decide⟩,
    description := some "How do hooks work?", userEmail := some "a@b.com",
    additionalInfo := none, imageUrls := some [] }

/-- A sample record without tags. -/
def sampleQ2 : Question :=
  { id := "q2", title := some "Firestore rules", tags := none,
    createdAt := some ⟨951782400, by decide, by decide⟩,
    description := none, userEmail := none, additionalInfo := none, imageUrls := none }

/-- A sample record without title and date. -/
def sampleQ3 : Question :=
  { id := "q3", title := none, tags := some ["css"], createdAt := none,
    description := some "Centering", userEmail := none, additionalInfo := none,
    imageUrls := none }

/-- The state after the three sample records have been fetched. -/
def sampleState : State :=
  fetchQuestions initial [sampleQ1, sampleQ2, sampleQ3]

/-- A sample record whose title has an accented capital and a Greek word
ending in a capital sigma, and whose tag is the Kelvin sign U+212A. -/
def sampleQ4 : Question :=
  { id := "q4", title := some "ÉCOLE ΟΔΟΣ", tags := some ["\u212A"], createdAt := none,
    description := none, userEmail := none, additionalInfo := none, imageUrls := none }

/-- The state after the four sample records have been fetched. -/
def sampleState4 : State :=
  fetchQuestions initial [sampleQ1, sampleQ2, sampleQ3, sampleQ4]

/-- The user events of the page. -/
inductive Action where
  | changeTitle (value : String)
  | changeTag (value : String)
  | changeDate (value : String)
  | remove (id : String)
  | dragEnd (result : DropResult)
  | toggleExpand (id : String)
  deriving DecidableEq

/-- One event handled from state `s`. -/
def step (s : State) : Action → Option State
  | .changeTitle value => some (setFilterTitle s value)
  | .changeTag value => some (setFilterTag s value)
  | .changeDate value => some (setFilterDate s value)
  | .remove id => some (removeQuestion s id)
  | .dragEnd result => onDragEnd s result
  | .toggleExpand id => some (toggleExpandQuestion s id)

/-- A sequence of events handled one after the other. -/
def run (s : State) : List Action → Option State
  | [] => some s
  | a :: rest => (step s a).bind (fun s1 => run s1 rest)

/-- A sample sequence of events: a filter change, a removal, a drag and a
click on a card. -/
def sampleActions : List Action :=
  [.changeTitle "re", .remove "q2", .dragEnd ⟨⟨0⟩, some ⟨1⟩⟩, .toggleExpand "q1"]

/-- The state the sample events lead to from `sampleState`. -/
def sampleFinal : State :=
  { questions := [sampleQ1, sampleQ2, sampleQ3],
    filter := { title := "re", tag := "", date := "" },
    visibleQuestions := [sampleQ3, sampleQ1],
    expandedQuestionId := some "q1" }

end FindQuestion

namespace Chat

/-! ## The chat widget: `Chat.jsx` -/

/-- One entry of the transcript: `{ text, sender }`. `text` is `none` when the
relay's JSON has no `message` (the property read gives `undefined`). -/
structure ChatMessage where
  text : Option String
  sender : String
  deriving DecidableEq

/-- The three `useState` cells of the widget. -/
structure ChatState where
  isOpen : Bool
  messages : List ChatMessage
  inputValue : String
  deriving DecidableEq

/-- The request `handleSend` passes to `fetch`: the URL, the method and the
`prompt` of the JSON body. -/
structure Request where
  url : String
  method : String
  prompt : String
  deriving DecidableEq

/-- The body of the response as `handleSend` reads it. `unreadable`:
`await response.json()` rejects because the body is no JSON. `parsed message`:
the body is a JSON value other than `null` and `message` is its `message`
property, `none` when it has none or it is `null`. The relay of this
repository always answers with a JSON object; a body that is the JSON value
`null` is outside this type. -/
inductive Body where
  | unreadable
  | parsed (message : Option String)
  deriving DecidableEq

/-- How the relay call settles: `fetch` rejects, or it resolves with a
response whose `ok` flag and body are given. -/
inductive RelayOutcome where
  | rejected
  | response (ok : Bool) (body : Body)
  deriving DecidableEq

/-- The characters `String.prototype.trim` strips: WhiteSpace and
LineTerminator of ECMAScript. -/
def isWhiteSpace (c : Char) : Bool :=
  let n := c.toNat
  n == 0x09 || n == 0x0A || n == 0x0B || n == 0x0C || n == 0x0D || n == 0x20 ||
  n == 0xA0 || n == 0x1680 || (0x2000 ≤ n && n ≤ 0x200A) || n == 0x2028 ||
  n == 0x2029 || n == 0x202F || n == 0x205F || n == 0x3000 || n == 0xFEFF

/-- `String.prototype.trim`. -/
def trim (s : String) : String :=
  String.mk ((s.data.dropWhile isWhiteSpace).reverse.dropWhile isWhiteSpace).reverse

/-- `toggleChat`: `setIsOpen(!isOpen)`. -/
def toggleChat (s : ChatState) : ChatState :=
  { s with isOpen := !s.isOpen }

/-- The input's `onChange`: `setInputValue(e.target.value)`. -/
def changeInput (s : ChatState) (value : String) : ChatState :=
  { s with inputValue := value }

/-- The fixed text shown when the relay call fails. -/
def errorText : String := "Error: Could not receive a response from ChatGPT."

/-- The part of `handleSend` that runs before the `await`: when the trimmed
input is non-empty, the User message is appended, the input is cleared and
the request is issued. -/
def handleSendStart (s : ChatState) : ChatState × Option Request :=
  if trim s.inputValue != "" then
    let s1 := { s with messages := s.messages ++ [({ text := some s.inputValue, sender := "User" } : ChatMessage)] }
    let userMessage := s.inputValue
    let s2 := { s1 with inputValue := "" }
    (s2, some { url := "http://localhost:5000/chat", method := "POST", prompt := userMessage })
  else (s, none)

/-- The message the code after the `await` appends: the relay's `message` on
an `ok` response whose body is JSON (`data.message`, read when the update is
applied), the fixed error text from the `catch` block when `fetch` rejects,
the response is not `ok` or `response.json()` rejects. -/
def assistantMessage : RelayOutcome → ChatMessage
  | .rejected => { text := some errorText, sender := "ChatGPT" }
  | .response false _ => { text := some errorText, sender := "ChatGPT" }
  | .response true .unreadable => { text := some errorText, sender := "ChatGPT" }
  | .response true (.parsed message) => { text := message, sender := "ChatGPT" }

/-- The part of `handleSend` that runs once the relay call has settled:
`setMessages(prevMessages => [...prevMessages, reply])`, applied to the state
current at that moment. -/
def handleSendSettle (current : ChatState) (outcome : RelayOutcome) : ChatState :=
  { current with messages := current.messages ++ [assistantMessage outcome] }

/-- A whole `handleSend` with no other event in between: the state after it
and the requests it issued. -/
def handleSend (s : ChatState) (outcome : RelayOutcome) : ChatState × List Request :=
  match handleSendStart s with
  | (s2, some request) => (handleSendSettle s2 outcome, [request])
  | (s2, none) => (s2, [])

end Chat

namespace FindQuestion

/-! ## Loading: `fetchQuestions` -/

/-- What `doc.data()` returns: the fields stored in the document. A document
may store a field that is itself named `id`; the other fields are those of a
question record. -/
structure DocumentData where
  id : Option String
  title : Option String
  tags : Option (List String)
  createdAt : Option Timestamp
  description : Option String
  userEmail : Option String
  additionalInfo : Option String
  imageUrls : Option (List String)
  deriving DecidableEq

/-- One entry of `questionSnapshot.docs`: the document id and the stored
data. -/
structure QueryDocumentSnapshot where
  id : String
  data : DocumentData
  deriving DecidableEq

/-- The callback of `questionSnapshot.docs.map`: `{ id: doc.id, ...doc.data() }`.
The spread comes after `id`, so a stored field named `id` replaces
`doc.id`. -/
def docToQuestion (doc : QueryDocumentSnapshot) : Question :=
  { id := (match doc.data.id with
           | some stored => stored
           | none => doc.id),
    title := doc.data.title,
    tags := doc.data.tags,
    createdAt := doc.data.createdAt,
    description := doc.data.description,
    userEmail := doc.data.userEmail,
    additionalInfo := doc.data.additionalInfo,
    imageUrls := doc.data.imageUrls }

/-- How `await getDocs(questionsCollection)` settles. -/
inductive GetDocsResult where
  | rejected
  | snapshot (docs : List QueryDocumentSnapshot)
  deriving DecidableEq

/-- The whole of `fetchQuestions`: when `getDocs` rejects the function stops
at the `await` and no state is set; otherwise the documents are mapped to
records and both lists are set. -/
def fetchQuestionsFrom (s : State) : GetDocsResult → State
  | .rejected => s
  | .snapshot docs => fetchQuestions s (docs.map docToQuestion)

/-- A record as the store holds it, with the document id attached: the record
the load is meant to produce for a document. -/
def recordOf (doc : QueryDocumentSnapshot) : Question :=
  { id := doc.id,
    title := doc.data.title,
    tags := doc.data.tags,
    createdAt := doc.data.createdAt,
    description := doc.data.description,
    userEmail := doc.data.userEmail,
    additionalInfo := doc.data.additionalInfo,
    imageUrls := doc.data.imageUrls }

/-- A sample document whose data has no field named `id`. -/
def sampleDoc1 : QueryDocumentSnapshot :=
  { id := "docA",
    data := { id := none, title := some "React hooks", tags := some ["react"],
              createdAt := some ⟨1700000000, by decide, by decide⟩, description := none,
              userEmail := none, additionalInfo := none, imageUrls := none } }

/-- A sample document whose data stores a field `id: "legacy-7"`. -/
def sampleDoc2 : QueryDocumentSnapshot :=
  { id := "docB",
    data := { id := some "legacy-7", title := some "Firestore rules", tags := none,
              createdAt := none, description := none, userEmail := none,
              additionalInfo := none, imageUrls := none } }

/-! ## Dragging in a filtered list -/

/-- The list `l` with its element at position `i` moved to position `j`; `l`
itself when `i` is no position of `l`. -/
def moveItem {α : Type} (l : List α) (i j : Nat) : List α :=
  match l[i]? with
  | none => l
  | some x => (l.eraseIdx i).take j ++ x :: (l.eraseIdx i).drop j

/-- The sample state with the tag filter set to `s`: the displayed list is
`[sampleQ1, sampleQ3]`. -/
def sampleFiltered : State :=
  setFilterTag sampleState "s"

end FindQuestion

namespace Chat

/-! ## Sequences of sends -/

/-- The widget when it is mounted. -/
def initial : ChatState :=
  { isOpen := false, messages := [], inputValue := "" }

/-- The pending input is empty or has white space only. -/
def isBlank (input : String) : Bool :=
  input.data.all isWhiteSpace

/-- The User message `handleSend` appends for the input `input`. -/
def userMessage (input : String) : ChatMessage :=
  { text := some input, sender := "User" }

/-- Sends completed one after the other: for each pair the input is typed,
Send is clicked and the relay call settles with the given outcome before the
next input is typed. -/
def sendAll (s : ChatState) : List (String × RelayOutcome) → ChatState
  | [] => s
  | (input, outcome) :: rest => sendAll (handleSend (changeInput s input) outcome).1 rest

/-! ## Sends in flight at the same time -/

/-- The widget together with the relay calls that have not settled yet
(`inFlight`) and all requests issued so far (`issued`). -/
structure Session where
  state : ChatState
  inFlight : List Request
  issued : List Request
  deriving DecidableEq

/-- What can happen next on the event loop: the user types, toggles the
widget or clicks Send, or the relay call at position `k` of the calls in
flight settles. -/
inductive Event where
  | typing (value : String)
  | toggle
  | clickSend
  | settle (k : Nat) (outcome : RelayOutcome)
  deriving DecidableEq

/-- One event. A click runs `handleSend` up to its `await`; a settling call
resumes its `handleSend` on the state of that moment. `none` when no call is
in flight at position `k`. -/
def Session.step (σ : Session) : Event → Option Session
  | .typing value => some { σ with state := changeInput σ.state value }
  | .toggle => some { σ with state := toggleChat σ.state }
  | .clickSend =>
    match handleSendStart σ.state with
    | (s2, some request) =>
      some { state := s2, inFlight := σ.inFlight ++ [request], issued := σ.issued ++ [request] }
    | (s2, none) => some { σ with state := s2 }
  | .settle k outcome =>
    if k < σ.inFlight.length then
      some { σ with state := handleSendSettle σ.state outcome, inFlight := σ.inFlight.eraseIdx k }
    else none

/-- A sequence of events, one after the other. -/
def Session.run (σ : Session) : List Event → Option Session
  | [] => some σ
  | e :: rest => (σ.step e).bind (fun σ1 => Session.run σ1 rest)

/-- The outcomes of the settle events of a sequence, in their order. -/
def settledOutcomes : List Event → List RelayOutcome
  | [] => []
  | .settle _ outcome :: rest => outcome :: settledOutcomes rest
  | _ :: rest => settledOutcomes rest

/-- Two sends in flight at once, the second settling first. -/
def sampleEvents : List Event :=
  [.typing "one", .clickSend, .typing "two", .clickSend,
   .settle 1 (.response true (.parsed (some "second"))), .toggle, .settle 0 .rejected]

/-- The session the sample events lead to from a fresh widget. -/
def sampleSession : Session :=
  { state := { isOpen := true,
               messages := [userMessage "one", userMessage "two",
                            { text := some "second", sender := "ChatGPT" },
                            { text := some errorText, sender := "ChatGPT" }],
               inputValue := "" },
    inFlight := [],
    issued := [⟨"http://localhost:5000/chat", "POST", "one"⟩,
               ⟨"http://localhost:5000/chat", "POST", "two"⟩] }

end Chat

namespace Server

/-! ## The backend: `server.js` -/

/-- The `prompt` property of the request body of `POST /chat`: missing, a
string, or some other JSON value (kept as its JSON text). -/
inductive PromptValue where
  | missing
  | text (value : String)
  | other (json : String)
  deriving DecidableEq

/-- One entry of `messages` in the call to the completion API. -/
structure ProviderMessage where
  role : String
  content : PromptValue
  deriving DecidableEq

/-- The argument of `openai.chat.completions.create`. -/
structure ProviderRequest where
  model : String
  messages : List ProviderMessage
  deriving DecidableEq

/-- The `message` of a completion candidate; `content` may be `null`. -/
structure CandidateMessage where
  content : Option String
  deriving DecidableEq

/-- One candidate of a completion; `message` is `none` when the property is
missing. -/
structure Choice where
  message : Option CandidateMessage
  deriving DecidableEq

/-- The value the completion API resolves with; `choices` is `none` when the
property is missing. -/
structure Completion where
  choices : Option (List Choice)
  deriving DecidableEq

/-- How the completion call settles: it throws (with some error text) or
resolves with a completion. -/
inductive ProviderResult where
  | throws (error : String)
  | resolves (completion : Completion)
  deriving DecidableEq

/-- The response of `POST /chat`: the status and the `message` of the JSON
body (`none` for `null`). -/
structure ChatResponse where
  status : Nat
  message : Option String
  deriving DecidableEq

/-- `completion.choices[0].message.content`: `none` when a property is read
from `undefined` (a `TypeError`), the content otherwise. -/
def firstContent (completion : Completion) : Option (Option String) :=
  match completion.choices with
  | none => none
  | some [] => none
  | some (choice :: _) =>
    match choice.message with
    | none => none
    | some message => some message.content

/-- The handler of `POST /chat`: the response and the calls made to the
completion API. The prompt is passed on as it is; every exception of the
`try` block ends in the `catch` block. -/
def chatHandler (prompt : PromptValue) (provider : ProviderResult) :
    ChatResponse × List ProviderRequest :=
  let request : ProviderRequest :=
    { model := "gpt-3.5-turbo", messages := [{ role := "user", content := prompt }] }
  match provider with
  | .throws _ => ({ status := 500, message := some "Internal Server Error" }, [request])
  | .resolves completion =>
    match firstContent completion with
    | none => ({ status := 500, message := some "Internal Server Error" }, [request])
    | some responseMessage => ({ status := 200, message := responseMessage }, [request])

/-- The `mailOptions` passed to `transporter.sendMail`: `from` (here
`sender`), `to` (here `recipient`), `subject` and `text`. -/
structure MailOptions where
  sender : String
  recipient : String
  subject : String
  text : String
  deriving DecidableEq

/-- How `sendMail` calls back: with an error or without. -/
inductive MailResult where
  | failed (error : String)
  | sent
  deriving DecidableEq

/-- The response of `POST /subscribe`: the status and the JSON body. -/
structure SubscribeResponse where
  status : Nat
  success : Bool
  message : String
  deriving DecidableEq

/-- The handler of `POST /subscribe` for a body whose `email` is missing
(`none`) or a string: the response and the mails handed to the mail service.
`!email` holds for a missing and for an empty email. -/
def subscribeHandler (email : Option String) (mail : MailResult) :
    SubscribeResponse × List MailOptions :=
  match email with
  | none => ({ status := 400, success := false, message := "Invalid email address." }, [])
  | some address =>
    if address == "" || !FindQuestion.includes address "@" then
      ({ status := 400, success := false, message := "Invalid email address." }, [])
    else
      let mailOptions : MailOptions :=
        { sender := "iamdaiyankhan@gmail.com", recipient := address,
          subject := "Welcome to the Newsletter!",
          text := "Thank you for subscribing to our newsletter!" }
      match mail with
      | .failed _ =>
        ({ status := 500, success := false, message := "Failed to send welcome email." },
         [mailOptions])
      | .sent =>
        ({ status := 200, success := true,
           message := "Subscription successful! Welcome email sent." }, [mailOptions])

end Server

/-! # Properties -/

namespace FindQuestion

/-! ## Strings and dates -/

theorem includes_iff_occurs (s search : String) :
    includes s search = true ↔ search.data <:+: s.data := by
  unfold includes
  rw [List.any_eq_true]
  constructor
  · rintro ⟨rest, hrest, hpre⟩
    rw [List.mem_tails] at hrest
    rw [ List.isPrefixOf_iff_prefix] at hpre
    exact List.infix_iff_prefix_suffix.mpr ⟨rest, hpre, hrest⟩
  · intro h
    obtain ⟨rest, hpre, hsuf⟩ := List.infix_iff_prefix_suffix.mp h
    exact ⟨rest, (List.mem_tails _ _).mpr hsuf, List.isPrefixOf_iff_prefix.mpr hpre⟩

theorem lowerCaseAt_ne_nil (before : List Char) (c : Char) (after : List Char) :
    lowerCaseAt before c after ≠ [] := by
  unfold lowerCaseAt
  split
  · split <;> simp
  · split <;> simp

theorem lowerCaseFrom_eq_nil (before cs : List Char) :
    lowerCaseFrom before cs = [] ↔ cs = [] := by
  cases cs with
  | nil => simp [lowerCaseFrom]
  | cons c after => simp [lowerCaseFrom, lowerCaseAt_ne_nil]

theorem toLowerCase_eq_empty (s : String) : toLowerCase s = "" ↔ s = "" := by
  unfold toLowerCase
  constructor
  · intro h
    have h1 : (String.mk (lowerCaseFrom [] s.data)).data = ("" : String).data := by rw [h]
    have h2 : s.data = [] := (lowerCaseFrom_eq_nil [] s.data).mp h1
    exact String.ext h2
  · intro h
    subst h
    rfl

theorem not_includes_empty (search : String) (h : search ≠ "") :
    includes (toLowerCase "") (toLowerCase search) = false := by
  rw [Bool.eq_false_iff]
  intro hinc
  rw [includes_iff_occurs] at hinc
  have h0 : (toLowerCase "").data = [] := rfl
  rw [h0, List.infix_nil] at hinc
  exact h ((toLowerCase_eq_empty search).mp (String.ext hinc))

theorem digitChar_ne_T (d : Nat) : digitChar d ≠ 'T' := by
  unfold digitChar
  split <;> decide

theorem padDigits_ne_T (width n : Nat) : ∀ c ∈ padDigits width n, c ≠ 'T' := by
  induction width generalizing n with
  | zero => intro c hc; simp [padDigits] at hc
  | succ w ih =>
    intro c hc
    simp only [padDigits, List.mem_append, List.mem_singleton] at hc
    rcases hc with hc | hc
    · exact ih _ c hc
    · rw [hc]; exact digitChar_ne_T n

theorem isoYear_ne_T (y : Int) : ∀ c ∈ isoYear y, c ≠ 'T' := by
  intro c hc
  unfold isoYear at hc
  split at hc
  · exact padDigits_ne_T _ _ c hc
  · split at hc
    · rcases List.mem_cons.mp hc with hc | hc
      · rw [hc]; decide
      · exact padDigits_ne_T _ _ c hc
    · rcases List.mem_cons.mp hc with hc | hc
      · rw [hc]; decide
      · exact padDigits_ne_T _ _ c hc

theorem isoDate_ne_T (days : Int) : ∀ c ∈ isoDate days, c ≠ 'T' := by
  intro c hc
  unfold isoDate at hc
  generalize civilFromDays days = r at hc
  obtain ⟨y, m, d⟩ := r
  change c ∈ (isoYear y ++ '-' :: padDigits 2 m) ++ '-' :: padDigits 2 d at hc
  rcases List.mem_append.mp hc with hc | hc
  · rcases List.mem_append.mp hc with hc | hc
    · exact isoYear_ne_T _ c hc
    · rcases List.mem_cons.mp hc with hc | hc
      · rw [hc]; decide
      · exact padDigits_ne_T _ _ c hc
  · rcases List.mem_cons.mp hc with hc | hc
    · rw [hc]; decide
    · exact padDigits_ne_T _ _ c hc

/-- The part of `toISOString` before the `T` is the UTC calendar day. -/
theorem splitHead_toISOString (seconds : Int) :
    splitHead (toISOString (seconds * 1000)) 'T' = utcCalendarDay seconds := by
  unfold splitHead toISOString utcCalendarDay
  have hdiv : seconds * 1000 / 86400000 = seconds / 86400 := by
    have : (86400000 : Int) = 86400 * 1000 := by norm_num
    rw [this]
    exact Int.mul_ediv_mul_of_pos_left _ _ (by norm_num)
  rw [hdiv]
  congr 1
  rw [List.takeWhile_append_of_pos]
  · simp
  · intro c hc
    simpa using isoDate_ne_T _ c hc

end FindQuestion

namespace FindQuestion

/-! ## The filter predicate -/

theorem titleMatch_iff (filter : Filter) (question : Question) :
    titleMatch filter question = true ↔
      (filter.title = "" ∨ ∃ title, question.title = some title ∧
        (toLowerCase filter.title).data <:+: (toLowerCase title).data) := by
  unfold titleMatch
  by_cases hf : filter.title = ""
  · simp [hf]
  · cases ht : question.title with
    | none => simp [hf]
    | some title =>
      by_cases he : title = ""
      · subst he
        have hinc := not_includes_empty filter.title hf
        have hninf : ¬ (toLowerCase filter.title).data <:+: (toLowerCase "").data := by
          rw [← includes_iff_occurs, hinc]; simp
        simp [hf, hninf]
      · simp [hf, he, includes_iff_occurs]

theorem tagMatch_iff (filter : Filter) (question : Question) :
    tagMatch filter question = true ↔
      (filter.tag = "" ∨ ∃ tags, question.tags = some tags ∧
        ∃ tag ∈ tags, (toLowerCase filter.tag).data <:+: (toLowerCase tag).data) := by
  unfold tagMatch
  by_cases hf : filter.tag = ""
  · simp [hf]
  · cases ht : question.tags with
    | none => simp [hf]
    | some tags => simp [hf, List.any_eq_true, includes_iff_occurs]

theorem dateMatch_iff (filter : Filter) (question : Question) :
    dateMatch filter question = true ↔
      (filter.date = "" ∨ ∃ createdAt, question.createdAt = some createdAt ∧
        utcCalendarDay createdAt.seconds = filter.date) := by
  unfold dateMatch
  by_cases hf : filter.date = ""
  · simp [hf]
  · cases ht : question.createdAt with
    | none => simp [hf]
    | some createdAt => simp [hf, splitHead_toISOString]

theorem filterCallback_iff (filter : Filter) (question : Question) :
    filterCallback filter question = true ↔ Matches filter question := by
  unfold filterCallback Matches
  rw [Bool.and_eq_true, Bool.and_eq_true, titleMatch_iff, tagMatch_iff, dateMatch_iff, and_assoc]

/-- On the ASCII code points the simple lower-case mapping is the ASCII one:
`A` to `Z` become `a` to `z`, the others are kept. -/
theorem simpleLowerCase_ascii :
    ∀ n, n < 128 → simpleLowerCase (Char.ofNat n) = Char.toLower (Char.ofNat n) := by
  decide!

theorem lowerCaseAt_ascii (before : List Char) (c : Char) (after : List Char)
    (h : c.toNat < 128) : lowerCaseAt before c after = [Char.toLower c] := by
  have h1 : ¬ c.toNat = 0x03A3 := by omega
  have h2 : ¬ c.toNat = 0x0130 := by omega
  have h3 := simpleLowerCase_ascii c.toNat h
  rw [Char.ofNat_toNat] at h3
  simp only [lowerCaseAt, h1, h2, if_false, h3]

theorem lowerCaseFrom_ascii (before cs : List Char) (h : ∀ c ∈ cs, c.toNat < 128) :
    lowerCaseFrom before cs = cs.map Char.toLower := by
  induction cs generalizing before with
  | nil => rfl
  | cons c after ih =>
    simp only [lowerCaseFrom, List.map_cons]
    rw [lowerCaseAt_ascii before c after (h c (List.mem_cons_self _ _)),
      ih (c :: before) (fun d hd => h d (List.mem_cons_of_mem _ hd))]
    rfl

/-- C1: the callback of `filteredQuestions` holds of a question exactly when
the title filter is empty or contained in its title, the tag filter is empty
or contained in one of its tags (both in lower case), and the date filter is
empty or equal to the UTC calendar day of `createdAt.seconds`; so a question is
in the displayed list exactly when it is visible and matches in this sense.
The lower case is the Unicode one: on ASCII text it turns `A` to `Z` into `a`
to `z` and keeps the rest, `ÉCOLE` becomes `école`, the Kelvin sign becomes
`k`, a capital sigma becomes a final sigma at the end of a word, and so the
title filter `é`, the title filter `Οδός` without accent and the tag filter
`k` display the sample record with title `ÉCOLE ΟΔΟΣ` and tag U+212A. -/
theorem filteredQuestions_mem_iff (s : State) (question : Question) :
    (filterCallback s.filter question = true ↔ Matches s.filter question) ∧
    (question ∈ filteredQuestions s ↔
      question ∈ s.visibleQuestions ∧ Matches s.filter question) ∧
    (∀ text : String, (∀ c ∈ text.data, c.toNat < 128) →
      toLowerCase text = String.mk (text.data.map Char.toLower)) ∧
    toLowerCase "ÉCOLE ΟΔΟΣ" = "école οδος" ∧
    toLowerCase "\u212A" = "k" ∧
    toLowerCase "\u0130" = "i\u0307" ∧
    filteredQuestions (setFilterTitle sampleState4 "é") = [sampleQ4] ∧
    filteredQuestions (setFilterTitle sampleState4 "Οδος") = [sampleQ4] ∧
    filteredQuestions (setFilterTag sampleState4 "k") = [sampleQ4] ∧
    filteredQuestions (setFilterTitle sampleState4 "REACT") = [sampleQ1] := by
  refine ⟨filterCallback_iff _ _, ?_, ?_, by decide!, by decide!, by decide!, by decide!,
    by decide!, by decide!, by decide!⟩
  · unfold filteredQuestions
    rw [List.mem_filter, filterCallback_iff]
  · intro text h
    unfold toLowerCase
    rw [lowerCaseFrom_ascii [] text.data h]

end FindQuestion

namespace FindQuestion

/-! ## Reordering: `onDragEnd` -/

/-- The list `onDragEnd` stores for a source index inside the list: the
element at `i` taken out and put back at `j` of what remains. -/
theorem onDragEnd_eq (s : State) (i j : Nat) (hi : i < s.visibleQuestions.length) :
    onDragEnd s ⟨⟨i⟩, some ⟨j⟩⟩ =
      some { s with visibleQuestions :=
        (s.visibleQuestions.eraseIdx i).take j ++
          s.visibleQuestions.get ⟨i, hi⟩ :: (s.visibleQuestions.eraseIdx i).drop j } := by
  have hhead : ((s.visibleQuestions.drop i).take 1).head? = some (s.visibleQuestions.get ⟨i, hi⟩) := by
    rw [List.drop_eq_getElem_cons hi]
    rfl
  simp only [onDragEnd, splice, hhead, List.append_nil, Nat.add_zero, List.append_assoc,
    List.singleton_append, List.eraseIdx_eq_take_drop_succ]

theorem move_getElem? {α : Type} (l : List α) (x : α) (j : Nat) (hj : j ≤ l.length) :
    (l.take j ++ x :: l.drop j)[j]? = some x := by
  rw [List.getElem?_append_right (by simp)]
  simp [Nat.min_eq_left hj]

theorem move_eraseIdx {α : Type} (l : List α) (x : α) (j : Nat) (hj : j ≤ l.length) :
    (l.take j ++ x :: l.drop j).eraseIdx j = l := by
  rw [List.eraseIdx_append_of_length_le (by simp)]
  simp [Nat.min_eq_left hj]

theorem move_perm {α : Type} (l : List α) (i j : Nat) (hi : i < l.length) :
    ((l.eraseIdx i).take j ++ l.get ⟨i, hi⟩ :: (l.eraseIdx i).drop j).Perm l := by
  have h1 : ((l.eraseIdx i).take j ++ l.get ⟨i, hi⟩ :: (l.eraseIdx i).drop j).Perm
      (l.get ⟨i, hi⟩ :: l.eraseIdx i) := by
    refine List.perm_middle.trans ?_
    rw [List.take_append_drop]
  refine h1.trans ?_
  rw [List.eraseIdx_eq_take_drop_succ]
  have h3 : l = l.take i ++ l.get ⟨i, hi⟩ :: l.drop (i + 1) := by
    simp
  conv_rhs => rw [h3]
  exact List.perm_middle.symm

end FindQuestion

namespace FindQuestion

/-- C2: for a source index `i` and a destination index `j` inside the visible
list, `onDragEnd` stores a list that has at `j` the element formerly at `i`
and is otherwise the same list (a single-element move), the other state cells
being kept; a drag result without destination leaves the state unchanged. -/
theorem onDragEnd_single_move (s : State) (i j : Nat)
    (hi : i < s.visibleQuestions.length) (hj : j < s.visibleQuestions.length) :
    (∃ s1, onDragEnd s ⟨⟨i⟩, some ⟨j⟩⟩ = some s1 ∧
      SingleMove s.visibleQuestions s1.visibleQuestions i j ∧
      s1.questions = s.questions ∧ s1.filter = s.filter ∧
      s1.expandedQuestionId = s.expandedQuestionId) ∧
    onDragEnd s ⟨⟨i⟩, none⟩ = some s := by
  refine ⟨⟨_, onDragEnd_eq s i j hi, ⟨?_, ?_, ?_⟩, rfl, rfl, rfl⟩, rfl⟩
  · have hle : j ≤ (s.visibleQuestions.eraseIdx i).length := by
      rw [List.length_eraseIdx]; simp only [hi, if_true]; omega
    show (_ ++ _ :: _)[j]? = _
    rw [move_getElem? _ _ _ hle, List.getElem?_eq_getElem hi]
    rfl
  · have hle : j ≤ (s.visibleQuestions.eraseIdx i).length := by
      rw [List.length_eraseIdx]; simp only [hi, if_true]; omega
    exact move_eraseIdx _ _ _ hle
  · exact (move_perm s.visibleQuestions i j hi).length_eq

theorem onDragEnd_single_move_witness :
    (0 < sampleState.visibleQuestions.length ∧ 2 < sampleState.visibleQuestions.length) ∧
    ((∃ s1, onDragEnd sampleState ⟨⟨0⟩, some ⟨2⟩⟩ = some s1 ∧
      SingleMove sampleState.visibleQuestions s1.visibleQuestions 0 2 ∧
      s1.questions = sampleState.questions ∧ s1.filter = sampleState.filter ∧
      s1.expandedQuestionId = sampleState.expandedQuestionId) ∧
    onDragEnd sampleState ⟨⟨0⟩, none⟩ = some sampleState) :=
  ⟨⟨by decide, by decide⟩, onDragEnd_single_move sampleState 0 2 (by decide) (by decide)⟩

/-- C3: for a source index inside the visible list and any destination index,
`onDragEnd` stores a permutation of the visible list: the multiset of question
ids and the length are the same before and after. -/
theorem onDragEnd_ids_multiset (s : State) (i j : Nat) (hi : i < s.visibleQuestions.length) :
    ∃ s1, onDragEnd s ⟨⟨i⟩, some ⟨j⟩⟩ = some s1 ∧
      (Multiset.ofList (s1.visibleQuestions.map Question.id) =
        Multiset.ofList (s.visibleQuestions.map Question.id)) ∧
      s1.visibleQuestions.length = s.visibleQuestions.length ∧
      s1.visibleQuestions.Perm s.visibleQuestions := by
  have hperm := move_perm s.visibleQuestions i j hi
  exact ⟨_, onDragEnd_eq s i j hi, Multiset.coe_eq_coe.mpr (hperm.map _), hperm.length_eq, hperm⟩

theorem onDragEnd_ids_multiset_witness :
    1 < sampleState.visibleQuestions.length ∧
    ∃ s1, onDragEnd sampleState ⟨⟨1⟩, some ⟨0⟩⟩ = some s1 ∧
      (Multiset.ofList (s1.visibleQuestions.map Question.id) =
        Multiset.ofList (sampleState.visibleQuestions.map Question.id)) ∧
      s1.visibleQuestions.length = sampleState.visibleQuestions.length ∧
      s1.visibleQuestions.Perm sampleState.visibleQuestions :=
  ⟨by decide, onDragEnd_ids_multiset sampleState 1 0 (by decide)⟩

end FindQuestion

namespace FindQuestion

/-! ## Removing and expanding -/

/-- The list `removeQuestion` stores, and the fetched list it keeps. -/
theorem removeQuestion_lists (s : State) (id : String) :
    (removeQuestion s id).visibleQuestions =
      s.visibleQuestions.filter (fun question => question.id != id) ∧
    (removeQuestion s id).questions = s.questions := by
  unfold removeQuestion
  by_cases h : s.expandedQuestionId = some id
  · simp [h]
  · simp [h]

/-- C4, as the code behaves: after `removeQuestion(id)` no visible entry has
that id and `expandedQuestionId` is not `id`; `toggleExpandQuestion(id)` does
not look at the visible list, so called next it sets `expandedQuestionId` to
`id`. -/
theorem removeQuestion_then_toggle (s : State) (id : String) :
    (removeQuestion s id).expandedQuestionId ≠ some id ∧
    (∀ question ∈ (removeQuestion s id).visibleQuestions, question.id ≠ id) ∧
    (toggleExpandQuestion (removeQuestion s id) id).expandedQuestionId = some id := by
  have h1 : (removeQuestion s id).expandedQuestionId ≠ some id := by
    unfold removeQuestion
    by_cases h : s.expandedQuestionId = some id
    · simp [h]
    · simp [h]
  refine ⟨h1, ?_, ?_⟩
  · intro question hq
    unfold removeQuestion at hq
    by_cases h : s.expandedQuestionId = some id
    · simp only [h, if_true, List.mem_filter] at hq
      simpa using hq.2
    · simp only [h, if_false, List.mem_filter] at hq
      simpa using hq.2
  · unfold toggleExpandQuestion
    simp [h1]

/-- C4 fails as stated: removing `q1` and then toggling `q1` leaves
`expandedQuestionId` set to `q1`, not `null`. -/
theorem removeQuestion_then_toggle_counterexample :
    (toggleExpandQuestion (removeQuestion sampleState "q1") "q1").expandedQuestionId = some "q1" ∧
    (toggleExpandQuestion (removeQuestion sampleState "q1") "q1").expandedQuestionId ≠ none := by
  decide

/-- C5: `removeQuestion(id)` keeps, in their order, exactly the visible
entries whose id is not `id`; `expandedQuestionId` becomes `null` when it was
`id` and is otherwise kept; `filter` and `questions` are kept. -/
theorem removeQuestion_frame (s : State) (id : String) :
    (removeQuestion s id).visibleQuestions =
      s.visibleQuestions.filter (fun question => decide (question.id ≠ id)) ∧
    (removeQuestion s id).expandedQuestionId =
      (if s.expandedQuestionId = some id then none else s.expandedQuestionId) ∧
    (removeQuestion s id).filter = s.filter ∧
    (removeQuestion s id).questions = s.questions := by
  unfold removeQuestion
  have hfun : (fun question : Question => question.id != id) =
      (fun question : Question => decide (question.id ≠ id)) := by
    funext question
    by_cases hq : question.id = id
    · simp [hq]
    · simp [hq]
  by_cases h : s.expandedQuestionId = some id
  · simp [h, hfun]
  · simp [h, hfun]

/-- C6, as the code behaves: `toggleExpandQuestion(id)` sets
`expandedQuestionId` to `null` when it is `id` and to `id` otherwise, keeping
the other cells; two toggles of the same id in a row give `null` when the
value before them was not `id`, and `id` when it was. -/
theorem toggleExpandQuestion_spec (s : State) (id : String) :
    (toggleExpandQuestion s id).expandedQuestionId =
      (if s.expandedQuestionId = some id then none else some id) ∧
    (toggleExpandQuestion s id).questions = s.questions ∧
    (toggleExpandQuestion s id).filter = s.filter ∧
    (toggleExpandQuestion s id).visibleQuestions = s.visibleQuestions ∧
    (toggleExpandQuestion (toggleExpandQuestion s id) id).expandedQuestionId =
      (if s.expandedQuestionId = some id then some id else none) := by
  unfold toggleExpandQuestion
  by_cases h : s.expandedQuestionId = some id
  · simp [h]
  · simp [h]

/-- C6 fails as stated when the toggled question is the expanded one: two
toggles of `q1` from a state where `q1` is expanded leave `q1` expanded. -/
theorem toggleExpandQuestion_twice_counterexample :
    (toggleExpandQuestion (toggleExpandQuestion
      { sampleState with expandedQuestionId := some "q1" } "q1") "q1").expandedQuestionId
      = some "q1" ∧
    (toggleExpandQuestion (toggleExpandQuestion
      { sampleState with expandedQuestionId := some "q1" } "q1") "q1").expandedQuestionId
      ≠ none := by
  decide

end FindQuestion

namespace FindQuestion

/-! ## Filtering composes -/

theorem titleMatch_empty (tag date : String) (question : Question) :
    titleMatch ⟨"", tag, date⟩ question = true := by
  simp [titleMatch]

theorem tagMatch_empty (title date : String) (question : Question) :
    tagMatch ⟨title, "", date⟩ question = true := by
  simp [tagMatch]

theorem dateMatch_empty (title tag : String) (question : Question) :
    dateMatch ⟨title, tag, ""⟩ question = true := by
  simp [dateMatch]

/-- The callback for a filter is the conjunction of the callbacks for its
title part (with the date) and its tag part. -/
theorem filterCallback_split (x y d : String) (question : Question) :
    filterCallback ⟨x, y, d⟩ question =
      (filterCallback ⟨x, "", d⟩ question && filterCallback ⟨"", y, ""⟩ question) := by
  have h1 : titleMatch ⟨x, "", d⟩ question = titleMatch ⟨x, y, d⟩ question := rfl
  have h2 : tagMatch ⟨"", y, ""⟩ question = tagMatch ⟨x, y, d⟩ question := rfl
  have h3 : dateMatch ⟨x, "", d⟩ question = dateMatch ⟨x, y, d⟩ question := rfl
  simp only [filterCallback, titleMatch_empty, tagMatch_empty, dateMatch_empty, h1, h2, h3,
    Bool.and_true, Bool.true_and]
  cases titleMatch ⟨x, y, d⟩ question <;> cases tagMatch ⟨x, y, d⟩ question <;>
    cases dateMatch ⟨x, y, d⟩ question <;> rfl

/-- C7: setting the title filter to `x` and the tag filter to `y`, in either
order, displays the same list as the filter with both set at once; that list
is the list displayed for title `x` alone filtered by tag `y`, and also the
list displayed for tag `y` alone filtered by title `x`; and applying a filter
to the list it displays gives that list again. -/
theorem filteredQuestions_commute_idempotent (s : State) (x y : String) :
    filteredQuestions (setFilterTag (setFilterTitle s x) y) =
      filteredQuestions { s with filter := ⟨x, y, s.filter.date⟩ } ∧
    filteredQuestions (setFilterTitle (setFilterTag s y) x) =
      filteredQuestions { s with filter := ⟨x, y, s.filter.date⟩ } ∧
    filteredQuestions { s with filter := ⟨x, y, s.filter.date⟩ } =
      filteredQuestions { s with
        visibleQuestions := filteredQuestions { s with filter := ⟨x, "", s.filter.date⟩ },
        filter := ⟨"", y, ""⟩ } ∧
    filteredQuestions { s with filter := ⟨x, y, s.filter.date⟩ } =
      filteredQuestions { s with
        visibleQuestions := filteredQuestions { s with filter := ⟨"", y, s.filter.date⟩ },
        filter := ⟨x, "", ""⟩ } ∧
    filteredQuestions { s with visibleQuestions := filteredQuestions s } =
      filteredQuestions s := by
  refine ⟨rfl, rfl, ?_, ?_, ?_⟩
  · simp only [filteredQuestions, List.filter_filter]
    congr 1
    funext question
    rw [filterCallback_split, Bool.and_comm]
  · simp only [filteredQuestions, List.filter_filter]
    congr 1
    funext question
    have h1 : titleMatch ⟨x, "", ""⟩ question = titleMatch ⟨x, y, s.filter.date⟩ question := rfl
    have h2 : tagMatch ⟨"", y, s.filter.date⟩ question =
        tagMatch ⟨x, y, s.filter.date⟩ question := rfl
    have h3 : dateMatch ⟨"", y, s.filter.date⟩ question =
        dateMatch ⟨x, y, s.filter.date⟩ question := rfl
    simp only [filterCallback, titleMatch_empty, tagMatch_empty, dateMatch_empty, h1, h2, h3,
      Bool.and_true, Bool.true_and]
    cases titleMatch ⟨x, y, s.filter.date⟩ question <;>
      cases tagMatch ⟨x, y, s.filter.date⟩ question <;>
      cases dateMatch ⟨x, y, s.filter.date⟩ question <;> rfl
  · simp only [filteredQuestions, List.filter_filter, Bool.and_self]

/-! ## The visible list stays within the fetched list -/

theorem onDragEnd_some (s s1 : State) (i j : Nat)
    (h : onDragEnd s ⟨⟨i⟩, some ⟨j⟩⟩ = some s1) : i < s.visibleQuestions.length := by
  by_contra hi
  have hdrop : s.visibleQuestions.drop i = [] := List.drop_eq_nil_of_le (by omega)
  simp [onDragEnd, splice, hdrop] at h

theorem step_preserves (s s1 : State) (a : Action) (h : step s a = some s1) :
    s1.questions = s.questions ∧ s1.visibleQuestions.Subperm s.visibleQuestions := by
  cases a with
  | changeTitle value =>
    simp only [step, Option.some.injEq] at h; subst h
    exact ⟨rfl, List.Subperm.refl _⟩
  | changeTag value =>
    simp only [step, Option.some.injEq] at h; subst h
    exact ⟨rfl, List.Subperm.refl _⟩
  | changeDate value =>
    simp only [step, Option.some.injEq] at h; subst h
    exact ⟨rfl, List.Subperm.refl _⟩
  | remove id =>
    simp only [step, Option.some.injEq] at h; subst h
    obtain ⟨hv, hq⟩ := removeQuestion_lists s id
    refine ⟨hq, ?_⟩
    rw [hv]
    exact (List.filter_sublist _).subperm
  | toggleExpand id =>
    simp only [step, Option.some.injEq] at h; subst h
    exact ⟨rfl, List.Subperm.refl _⟩
  | dragEnd result =>
    obtain ⟨⟨i⟩, destination⟩ := result
    cases destination with
    | none =>
      simp only [step, onDragEnd, Option.some.injEq] at h; subst h
      exact ⟨rfl, List.Subperm.refl _⟩
    | some destination =>
      obtain ⟨j⟩ := destination
      simp only [step] at h
      have hi := onDragEnd_some s s1 i j h
      rw [onDragEnd_eq s i j hi, Option.some.injEq] at h
      subst h
      exact ⟨rfl, (move_perm s.visibleQuestions i j hi).subperm⟩

theorem run_preserves (actions : List Action) (s s1 : State) (h : run s actions = some s1) :
    s1.questions = s.questions ∧ s1.visibleQuestions.Subperm s.visibleQuestions := by
  induction actions generalizing s with
  | nil =>
    simp only [run, Option.some.injEq] at h; subst h
    exact ⟨rfl, List.Subperm.refl _⟩
  | cons a rest ih =>
    simp only [run] at h
    cases hstep : step s a with
    | none => rw [hstep] at h; simp at h
    | some s2 =>
      rw [hstep] at h
      obtain ⟨hq, hv⟩ := ih s2 h
      obtain ⟨hq2, hv2⟩ := step_preserves s s2 a hstep
      exact ⟨hq.trans hq2, hv.trans hv2⟩

/-- The only event the model gives no next state for is a drag whose source
index lies outside the visible list. -/
theorem step_eq_none_iff (s : State) (a : Action) :
    step s a = none ↔
      ∃ i destination, a = .dragEnd ⟨⟨i⟩, some destination⟩ ∧ s.visibleQuestions.length ≤ i := by
  constructor
  · intro h
    cases a with
    | dragEnd result =>
      obtain ⟨⟨i⟩, destination⟩ := result
      cases destination with
      | none => simp [step, onDragEnd] at h
      | some destination =>
        refine ⟨i, destination, rfl, ?_⟩
        by_contra hi
        obtain ⟨j⟩ := destination
        simp only [step] at h
        rw [onDragEnd_eq s i j (by omega)] at h
        simp at h
    | changeTitle value => simp [step] at h
    | changeTag value => simp [step] at h
    | changeDate value => simp [step] at h
    | remove id => simp [step] at h
    | toggleExpand id => simp [step] at h
  · rintro ⟨i, ⟨j⟩, rfl, hi⟩
    cases hs : step s (.dragEnd ⟨⟨i⟩, some ⟨j⟩⟩) with
    | none => rfl
    | some s1 =>
      have := onDragEnd_some s s1 i j hs
      omega

/-- C8: in every state reached from a load of `questionList` by filter
changes, removals, drags and toggles, `questions` is `questionList` and
`visibleQuestions` is a permutation of a sublist of it: every visible entry is
a fetched entry and occurs at most as often as in the fetched list. Filter
changes and toggles keep `visibleQuestions` as it is. -/
theorem run_visible_subperm (s0 : State) (questionList : List Question)
    (actions : List Action) (s : State)
    (h : run (fetchQuestions s0 questionList) actions = some s) :
    s.questions = questionList ∧
    s.visibleQuestions.Subperm questionList ∧
    (∀ question ∈ s.visibleQuestions, question ∈ questionList) ∧
    (∀ question, s.visibleQuestions.count question ≤ questionList.count question) ∧
    (∀ (t : State) (value : String),
      (setFilterTitle t value).visibleQuestions = t.visibleQuestions ∧
      (setFilterTag t value).visibleQuestions = t.visibleQuestions ∧
      (setFilterDate t value).visibleQuestions = t.visibleQuestions ∧
      (toggleExpandQuestion t value).visibleQuestions = t.visibleQuestions) := by
  obtain ⟨hq, hv⟩ := run_preserves actions _ s h
  have hv1 : s.visibleQuestions.Subperm questionList := hv
  refine ⟨hq, hv1, fun question hmem => hv1.subset hmem, fun question => hv1.count_le question,
    fun t value => ⟨rfl, rfl, rfl, rfl⟩⟩

theorem run_visible_subperm_witness :
    run (fetchQuestions initial [sampleQ1, sampleQ2, sampleQ3]) sampleActions = some sampleFinal ∧
    (sampleFinal.questions = [sampleQ1, sampleQ2, sampleQ3] ∧
    sampleFinal.visibleQuestions.Subperm [sampleQ1, sampleQ2, sampleQ3] ∧
    (∀ question ∈ sampleFinal.visibleQuestions, question ∈ [sampleQ1, sampleQ2, sampleQ3]) ∧
    (∀ question, sampleFinal.visibleQuestions.count question ≤
      [sampleQ1, sampleQ2, sampleQ3].count question) ∧
    (∀ (t : State) (value : String),
      (setFilterTitle t value).visibleQuestions = t.visibleQuestions ∧
      (setFilterTag t value).visibleQuestions = t.visibleQuestions ∧
      (setFilterDate t value).visibleQuestions = t.visibleQuestions ∧
      (toggleExpandQuestion t value).visibleQuestions = t.visibleQuestions)) :=
  ⟨by decide, run_visible_subperm initial [sampleQ1, sampleQ2, sampleQ3] sampleActions
    sampleFinal (by decide)⟩

end FindQuestion

namespace Chat

/-! ## Sending a message -/

/-- The trimmed input is empty exactly when every character of the input is
white space. -/
theorem trim_eq_empty_iff (s : String) :
    trim s = "" ↔ ∀ c ∈ s.data, isWhiteSpace c = true := by
  have hdrop : s.data.dropWhile isWhiteSpace = [] ↔ ∀ c ∈ s.data, isWhiteSpace c = true :=
    List.dropWhile_eq_nil_iff
  constructor
  · intro h
    have h1 : (trim s).data = [] := by rw [h]
    simp only [trim, List.reverse_eq_nil_iff] at h1
    have h2 : ∀ c ∈ s.data.dropWhile isWhiteSpace, isWhiteSpace c = true := by
      intro c hc
      exact List.dropWhile_eq_nil_iff.mp h1 c (List.mem_reverse.mpr hc)
    rw [← hdrop]
    by_contra hne
    have hhead := List.head_dropWhile_not isWhiteSpace s.data hne
    rw [h2 _ (List.head_mem hne)] at hhead
    exact absurd hhead (by simp)
  · intro h
    apply String.ext
    simp only [trim, hdrop.mpr h]
    rfl

/-- C9: when every character of the pending input is white space (the empty
input included), `handleSend` changes nothing and issues no request: the
state after it is the state before it, transcript and input included, and the
list of requests is empty. -/
theorem handleSend_blank (s : ChatState) (outcome : RelayOutcome)
    (h : ∀ c ∈ s.inputValue.data, isWhiteSpace c = true) :
    handleSend s outcome = (s, []) ∧ handleSendStart s = (s, none) := by
  have ht : trim s.inputValue = "" := (trim_eq_empty_iff _).mpr h
  have hstart : handleSendStart s = (s, none) := by
    simp [handleSendStart, ht]
  refine ⟨?_, hstart⟩
  unfold handleSend
  rw [hstart]

theorem handleSend_blank_witness :
    (∀ c ∈ (ChatState.mk true [⟨some "hi", "User"⟩] " \t\n").inputValue.data,
      isWhiteSpace c = true) ∧
    (handleSend ⟨true, [⟨some "hi", "User"⟩], " \t\n"⟩ .rejected =
        (⟨true, [⟨some "hi", "User"⟩], " \t\n"⟩, []) ∧
      handleSendStart ⟨true, [⟨some "hi", "User"⟩], " \t\n"⟩ =
        (⟨true, [⟨some "hi", "User"⟩], " \t\n"⟩, none)) :=
  ⟨by decide, handleSend_blank ⟨true, [⟨some "hi", "User"⟩], " \t\n"⟩ .rejected (by decide)⟩

/-- C10: for a pending input `P` that has a character other than white space,
the part of `handleSend` before the relay call appends the User message with
text `P` as typed, clears the input and issues one request with prompt `P`;
when the relay answers with text `T`, the whole `handleSend` leaves the
transcript extended by exactly the User message `P` and the assistant message
`T`, two entries longer, with that one request issued. -/
theorem handleSend_success (s : ChatState) (T : String)
    (h : ¬ ∀ c ∈ s.inputValue.data, isWhiteSpace c = true) :
    handleSendStart s =
      ({ isOpen := s.isOpen, messages := s.messages ++ [⟨some s.inputValue, "User"⟩],
         inputValue := "" },
       some ⟨"http://localhost:5000/chat", "POST", s.inputValue⟩) ∧
    handleSend s (.response true (.parsed (some T))) =
      ({ isOpen := s.isOpen,
         messages := s.messages ++ [⟨some s.inputValue, "User"⟩, ⟨some T, "ChatGPT"⟩],
         inputValue := "" },
       [⟨"http://localhost:5000/chat", "POST", s.inputValue⟩]) ∧
    (handleSend s (.response true (.parsed (some T)))).1.messages.length =
      s.messages.length + 2 := by
  have ht : trim s.inputValue ≠ "" := fun ht => h ((trim_eq_empty_iff _).mp ht)
  have hstart : handleSendStart s =
      ({ isOpen := s.isOpen, messages := s.messages ++ [⟨some s.inputValue, "User"⟩],
         inputValue := "" },
       some ⟨"http://localhost:5000/chat", "POST", s.inputValue⟩) := by
    simp [handleSendStart, ht]
  have hsend : handleSend s (.response true (.parsed (some T))) =
      ({ isOpen := s.isOpen,
         messages := s.messages ++ [⟨some s.inputValue, "User"⟩, ⟨some T, "ChatGPT"⟩],
         inputValue := "" },
       [⟨"http://localhost:5000/chat", "POST", s.inputValue⟩]) := by
    unfold handleSend
    rw [hstart]
    simp [handleSendSettle, assistantMessage]
  refine ⟨hstart, hsend, ?_⟩
  rw [hsend]
  simp

theorem handleSend_success_witness :
    (¬ ∀ c ∈ (ChatState.mk true [] " hi ").inputValue.data, isWhiteSpace c = true) ∧
    (handleSendStart (ChatState.mk true [] " hi ") =
      ({ isOpen := true, messages := [] ++ [⟨some " hi ", "User"⟩], inputValue := "" },
       some ⟨"http://localhost:5000/chat", "POST", " hi "⟩) ∧
    handleSend (ChatState.mk true [] " hi ") (.response true (.parsed (some "hello"))) =
      ({ isOpen := true,
         messages := [] ++ [⟨some " hi ", "User"⟩, ⟨some "hello", "ChatGPT"⟩],
         inputValue := "" },
       [⟨"http://localhost:5000/chat", "POST", " hi "⟩]) ∧
    (handleSend (ChatState.mk true [] " hi ")
      (.response true (.parsed (some "hello")))).1.messages.length =
      ([] : List ChatMessage).length + 2) :=
  ⟨by decide, handleSend_success ⟨true, [], " hi "⟩ "hello" (by decide)⟩

end Chat

namespace Chat

/-! ## A send whose relay call fails -/

/-- The part of `handleSend` before the `await`, for an input that has a
character other than white space. -/
theorem handleSendStart_nonblank (s : ChatState)
    (h : ¬ ∀ c ∈ s.inputValue.data, isWhiteSpace c = true) :
    handleSendStart s =
      ({ isOpen := s.isOpen, messages := s.messages ++ [userMessage s.inputValue],
         inputValue := "" },
       some ⟨"http://localhost:5000/chat", "POST", s.inputValue⟩) := by
  have ht : trim s.inputValue ≠ "" := fun ht => h ((trim_eq_empty_iff _).mp ht)
  simp [handleSendStart, ht, userMessage]

/-- A whole `handleSend` for such an input, whatever the relay does. -/
theorem handleSend_nonblank (s : ChatState) (outcome : RelayOutcome)
    (h : ¬ ∀ c ∈ s.inputValue.data, isWhiteSpace c = true) :
    handleSend s outcome =
      ({ isOpen := s.isOpen,
         messages := s.messages ++ [userMessage s.inputValue, assistantMessage outcome],
         inputValue := "" },
       [⟨"http://localhost:5000/chat", "POST", s.inputValue⟩]) := by
  unfold handleSend
  rw [handleSendStart_nonblank s h]
  simp [handleSendSettle]

/-- C11: for an input that has a character other than white space, when the
relay call fails (`fetch` rejects, the response is not `ok`, or the body of an
`ok` response cannot be read), `handleSend` returns normally with the
transcript extended by the User message and exactly one assistant message,
whose text is the fixed error text. -/
theorem handleSend_failure (s : ChatState) (outcome : RelayOutcome)
    (hinput : ¬ ∀ c ∈ s.inputValue.data, isWhiteSpace c = true)
    (hfail : outcome = .rejected ∨ (∃ body, outcome = .response false body) ∨
      outcome = .response true .unreadable) :
    handleSend s outcome =
      ({ isOpen := s.isOpen,
         messages := s.messages ++
           [⟨some s.inputValue, "User"⟩,
            ⟨some "Error: Could not receive a response from ChatGPT.", "ChatGPT"⟩],
         inputValue := "" },
       [⟨"http://localhost:5000/chat", "POST", s.inputValue⟩]) ∧
    (handleSend s outcome).1.messages.length = s.messages.length + 2 := by
  have hmsg : assistantMessage outcome =
      ⟨some "Error: Could not receive a response from ChatGPT.", "ChatGPT"⟩ := by
    rcases hfail with h | ⟨body, h⟩ | h <;> subst h <;> rfl
  rw [handleSend_nonblank s outcome hinput, hmsg]
  exact ⟨rfl, by simp⟩

theorem handleSend_failure_witness :
    ((¬ ∀ c ∈ (ChatState.mk true [] "hi").inputValue.data, isWhiteSpace c = true) ∧
     (RelayOutcome.response false (.parsed (some "Internal Server Error")) = .rejected ∨
      (∃ body, RelayOutcome.response false (.parsed (some "Internal Server Error")) =
        .response false body) ∨
      RelayOutcome.response false (.parsed (some "Internal Server Error")) =
        .response true .unreadable)) ∧
    (handleSend (ChatState.mk true [] "hi")
        (.response false (.parsed (some "Internal Server Error"))) =
      ({ isOpen := true,
         messages := [] ++
           [⟨some "hi", "User"⟩,
            ⟨some "Error: Could not receive a response from ChatGPT.", "ChatGPT"⟩],
         inputValue := "" },
       [⟨"http://localhost:5000/chat", "POST", "hi"⟩]) ∧
    (handleSend (ChatState.mk true [] "hi")
        (.response false (.parsed (some "Internal Server Error")))).1.messages.length =
      ([] : List ChatMessage).length + 2) :=
  ⟨⟨by decide, Or.inr (Or.inl ⟨_, rfl⟩)⟩,
   handleSend_failure ⟨true, [], "hi"⟩ (.response false (.parsed (some "Internal Server Error")))
     (by decide) (Or.inr (Or.inl ⟨_, rfl⟩))⟩

end Chat

namespace Server

/-! ## The relay endpoint -/

/-- C12: `POST /chat` always calls the completion API once, with the prompt
of the body as it is (missing, a string or any other value). When the call
resolves with a completion whose first candidate has a message, the response
is 200 with that message's content; when the call throws, or the completion
has no `choices`, no candidate, or a first candidate without message, the
response is 500 with the fixed body `Internal Server Error`, whatever the
error was. -/
theorem chatHandler_spec (prompt : PromptValue) :
    (∀ content rest,
      chatHandler prompt (.resolves ⟨some (⟨some ⟨content⟩⟩ :: rest)⟩) =
        (⟨200, content⟩, [⟨"gpt-3.5-turbo", [⟨"user", prompt⟩]⟩])) ∧
    (∀ error,
      chatHandler prompt (.throws error) =
        (⟨500, some "Internal Server Error"⟩, [⟨"gpt-3.5-turbo", [⟨"user", prompt⟩]⟩])) ∧
    chatHandler prompt (.resolves ⟨none⟩) =
      (⟨500, some "Internal Server Error"⟩, [⟨"gpt-3.5-turbo", [⟨"user", prompt⟩]⟩]) ∧
    chatHandler prompt (.resolves ⟨some []⟩) =
      (⟨500, some "Internal Server Error"⟩, [⟨"gpt-3.5-turbo", [⟨"user", prompt⟩]⟩]) ∧
    (∀ rest,
      chatHandler prompt (.resolves ⟨some (⟨none⟩ :: rest)⟩) =
        (⟨500, some "Internal Server Error"⟩, [⟨"gpt-3.5-turbo", [⟨"user", prompt⟩]⟩])) ∧
    (∀ provider,
      (chatHandler prompt provider).1 = ⟨500, some "Internal Server Error"⟩ ∨
      ∃ completion content, provider = .resolves completion ∧
        firstContent completion = some content ∧
        (chatHandler prompt provider).1 = ⟨200, content⟩) ∧
    (chatHandler (.text "hello") (.resolves ⟨some [⟨some ⟨some "hi there"⟩⟩]⟩)).1 =
      ⟨200, some "hi there"⟩ := by
  refine ⟨fun _ _ => rfl, fun _ => rfl, rfl, rfl, fun _ => rfl, ?_, rfl⟩
  intro provider
  cases provider with
  | throws error => exact Or.inl rfl
  | resolves completion =>
    cases hc : firstContent completion with
    | none => left; simp [chatHandler, hc]
    | some content => right; exact ⟨completion, content, rfl, hc, by simp [chatHandler, hc]⟩

/-! ## The subscription endpoint -/

theorem includes_at_iff (address : String) :
    FindQuestion.includes address "@" = true ↔ '@' ∈ address.data := by
  rw [FindQuestion.includes_iff_occurs]
  have hat : ("@" : String).data = ['@'] := rfl
  rw [hat]
  constructor
  · rintro ⟨pre, post, h⟩
    rw [← h]
    simp
  · intro h
    obtain ⟨pre, post, h⟩ := List.append_of_mem h
    exact ⟨pre, post, by rw [h]; simp⟩

/-- C13: `POST /subscribe` answers 400 with `success: false` and hands no mail
to the mail service exactly when the email is missing, empty or has no `@`;
for an email with an `@` it hands one mail for that address to the mail
service and answers 500 with `success: false` when the send reports an error
and 200 with `success: true` when it does not. -/
theorem subscribeHandler_spec (email : Option String) (mail : MailResult) :
    (((subscribeHandler email mail).1.status = 400 ∧
        (subscribeHandler email mail).1.success = false ∧
        (subscribeHandler email mail).2 = []) ↔
      (email = none ∨ email = some "" ∨ ∃ address, email = some address ∧ '@' ∉ address.data)) ∧
    (∀ address, email = some address → '@' ∈ address.data →
      (subscribeHandler email mail).2 =
        [⟨"iamdaiyankhan@gmail.com", address, "Welcome to the Newsletter!",
          "Thank you for subscribing to our newsletter!"⟩] ∧
      (subscribeHandler email mail).1.status =
        (match mail with
         | .failed _ => 500
         | .sent => 200) ∧
      (subscribeHandler email mail).1.success =
        (match mail with
         | .failed _ => false
         | .sent => true)) ∧
    (subscribeHandler (some "not-an-email") mail).1.status = 400 ∧
    (subscribeHandler (some "not-an-email") mail).1.success = false ∧
    (subscribeHandler (some "a@b.com") .sent).1.status = 200 ∧
    (subscribeHandler (some "a@b.com") .sent).1.success = true := by
  have hvalid : ∀ address : String, '@' ∈ address.data →
      (address == "" || !FindQuestion.includes address "@") = false := by
    intro address hat
    have hne : address ≠ "" := by
      intro h; subst h; simp at hat
    simp [hne, (includes_at_iff address).mpr hat]
  have hinvalid : ∀ address : String, '@' ∉ address.data →
      (address == "" || !FindQuestion.includes address "@") = true := by
    intro address hat
    have hinc : FindQuestion.includes address "@" = false := by
      rw [Bool.eq_false_iff]; exact fun h => hat ((includes_at_iff address).mp h)
    simp [hinc]
  have hbad : FindQuestion.includes "not-an-email" "@" = false := by decide
  refine ⟨?_, ?_, by simp [subscribeHandler, hbad],
    by simp [subscribeHandler, hbad], by decide, by decide⟩
  · cases email with
    | none => simp [subscribeHandler]
    | some address =>
      by_cases hat : '@' ∈ address.data
      · have hne : address ≠ "" := by
          intro h; subst h; simp at hat
        cases mail <;> simp [subscribeHandler, hvalid address hat, hat, hne]
      · simp [subscribeHandler, hinvalid address hat, hat]
  · intro address hemail hat
    subst hemail
    cases mail <;> simp [subscribeHandler, hvalid address hat]

end Server

namespace FindQuestion

/-! ## Loading -/

/-- What the load does for every result of `getDocs`: on a snapshot both lists
become the mapped documents, in the fetched order and of the same length, and
a document whose data has no field named `id` becomes its record with the
document id; an empty snapshot gives empty lists and an empty displayed list;
a rejected fetch leaves the state as it is, so from the initial state both
lists and the displayed list stay empty. -/
theorem fetchQuestionsFrom_lists (s : State) (docs : List QueryDocumentSnapshot) :
    (fetchQuestionsFrom s (.snapshot docs)).questions = docs.map docToQuestion ∧
    (fetchQuestionsFrom s (.snapshot docs)).visibleQuestions = docs.map docToQuestion ∧
    (fetchQuestionsFrom s (.snapshot docs)).questions.length = docs.length ∧
    (∀ doc ∈ docs, doc.data.id = none → docToQuestion doc = recordOf doc) ∧
    (fetchQuestionsFrom s (.snapshot [])).questions = [] ∧
    (fetchQuestionsFrom s (.snapshot [])).visibleQuestions = [] ∧
    filteredQuestions (fetchQuestionsFrom s (.snapshot [])) = [] ∧
    fetchQuestionsFrom s .rejected = s ∧
    (fetchQuestionsFrom initial .rejected).questions = [] ∧
    (fetchQuestionsFrom initial .rejected).visibleQuestions = [] ∧
    filteredQuestions (fetchQuestionsFrom initial .rejected) = [] := by
  refine ⟨rfl, rfl, by simp [fetchQuestionsFrom, fetchQuestions], ?_, rfl, rfl, rfl, rfl, rfl, rfl,
    rfl⟩
  intro doc _ hid
  simp [docToQuestion, recordOf, hid]

/-- C14 at a document that stores a field named `id`: loading the documents
`docA` and `docB`, the second of which stores `id: "legacy-7"`, gives records
with the ids `docA` and `legacy-7`; the second record does not carry its
document id `docB`. -/
theorem fetchQuestionsFrom_stored_id :
    (fetchQuestionsFrom initial (.snapshot [sampleDoc1, sampleDoc2])).questions.map Question.id =
      ["docA", "legacy-7"] ∧
    (fetchQuestionsFrom initial (.snapshot [sampleDoc1, sampleDoc2])).visibleQuestions.map
      Question.id = ["docA", "legacy-7"] ∧
    [sampleDoc1, sampleDoc2].map QueryDocumentSnapshot.id = ["docA", "docB"] ∧
    (fetchQuestionsFrom initial (.snapshot [sampleDoc1, sampleDoc2])).questions ≠
      [sampleDoc1, sampleDoc2].map recordOf := by
  decide

/-! ## Dragging while a filter is set -/

/-- The list `onDragEnd` stores is the visible list with the element at the
source index moved to the destination index. -/
theorem onDragEnd_moveItem (s : State) (i j : Nat) (hi : i < s.visibleQuestions.length) :
    onDragEnd s ⟨⟨i⟩, some ⟨j⟩⟩ =
      some { s with visibleQuestions := moveItem s.visibleQuestions i j } := by
  rw [onDragEnd_eq s i j hi]
  simp [moveItem, List.getElem?_eq_getElem hi]

/-- C17 at a filtered list: with the tag filter `s` the displayed list is
`[q1, q3]` while the visible list is `[q1, q2, q3]`. Dragging the displayed
item at index 0 to index 1 moves `q1` behind `q2` in the visible list, so the
displayed list is still `[q1, q3]`, whereas the displayed list with its first
item moved to index 1 is `[q3, q1]`. -/
theorem onDragEnd_filtered_evaluation :
    filteredQuestions sampleFiltered = [sampleQ1, sampleQ3] ∧
    sampleFiltered.visibleQuestions = [sampleQ1, sampleQ2, sampleQ3] ∧
    (onDragEnd sampleFiltered ⟨⟨0⟩, some ⟨1⟩⟩).map State.visibleQuestions =
      some [sampleQ2, sampleQ1, sampleQ3] ∧
    (onDragEnd sampleFiltered ⟨⟨0⟩, some ⟨1⟩⟩).map filteredQuestions =
      some [sampleQ1, sampleQ3] ∧
    moveItem (filteredQuestions sampleFiltered) 0 1 = [sampleQ3, sampleQ1] ∧
    (onDragEnd sampleFiltered ⟨⟨0⟩, some ⟨1⟩⟩).map filteredQuestions ≠
      some (moveItem (filteredQuestions sampleFiltered) 0 1) := by
  decide

end FindQuestion

namespace FindQuestion

/-- With all three filters empty every visible question is displayed. -/
theorem filteredQuestions_unfiltered (s : State) (h : s.filter = ⟨"", "", ""⟩) :
    filteredQuestions s = s.visibleQuestions := by
  unfold filteredQuestions
  rw [h, List.filter_eq_self]
  intro question _
  simp [filterCallback, titleMatch, tagMatch, dateMatch]

/-- While no filter is set the drag moves the displayed item: the displayed
list after `onDragEnd` is the displayed list with its element at the source
index moved to the destination index. -/
theorem onDragEnd_unfiltered (s : State) (i j : Nat) (h : s.filter = ⟨"", "", ""⟩)
    (hi : i < (filteredQuestions s).length) :
    (onDragEnd s ⟨⟨i⟩, some ⟨j⟩⟩).map filteredQuestions =
      some (moveItem (filteredQuestions s) i j) := by
  rw [filteredQuestions_unfiltered s h] at hi ⊢
  rw [onDragEnd_moveItem s i j hi]
  simp only [Option.map_some']
  exact congrArg some
    (filteredQuestions_unfiltered { s with visibleQuestions := moveItem s.visibleQuestions i j } h)

end FindQuestion

namespace Chat

/-! ## Sends completed one after the other -/

/-- The part of `handleSend` before the `await`, for a blank input. -/
theorem handleSendStart_blank (s : ChatState)
    (h : ∀ c ∈ s.inputValue.data, isWhiteSpace c = true) :
    handleSendStart s = (s, none) := by
  have ht : trim s.inputValue = "" := (trim_eq_empty_iff _).mpr h
  simp [handleSendStart, ht]

theorem assistantMessage_sender (outcome : RelayOutcome) :
    (assistantMessage outcome).sender = "ChatGPT" := by
  cases outcome with
  | rejected => rfl
  | response ok body =>
    cases ok with
    | false => rfl
    | true => cases body <;> rfl

/-- Every `handleSend` keeps the transcript it starts from as a prefix. -/
theorem handleSend_keeps_messages (s : ChatState) (outcome : RelayOutcome) :
    s.messages <+: (handleSend s outcome).1.messages := by
  by_cases h : ∀ c ∈ s.inputValue.data, isWhiteSpace c = true
  · unfold handleSend
    rw [handleSendStart_blank s h]
  · rw [handleSend_nonblank s outcome h]
    exact List.prefix_append _ _

theorem sendAll_append (s : ChatState) (earlier later : List (String × RelayOutcome)) :
    sendAll s (earlier ++ later) = sendAll (sendAll s earlier) later := by
  induction earlier generalizing s with
  | nil => rfl
  | cons p rest ih =>
    obtain ⟨input, outcome⟩ := p
    simp only [List.cons_append, sendAll]
    exact ih _

theorem sendAll_keeps_messages (sends : List (String × RelayOutcome)) (s : ChatState) :
    s.messages <+: (sendAll s sends).messages := by
  induction sends generalizing s with
  | nil => exact List.prefix_refl _
  | cons p rest ih =>
    obtain ⟨input, outcome⟩ := p
    simp only [sendAll]
    exact (handleSend_keeps_messages (changeInput s input) outcome).trans (ih _)

/-- The transcript after sends with non-blank inputs: two entries per send,
appended in order. -/
theorem sendAll_messages (sends : List (String × RelayOutcome)) (s : ChatState)
    (h : ∀ p ∈ sends, ¬ ∀ c ∈ p.1.data, isWhiteSpace c = true) :
    (sendAll s sends).messages =
      s.messages ++ sends.flatMap (fun p => [userMessage p.1, assistantMessage p.2]) := by
  induction sends generalizing s with
  | nil => simp [sendAll]
  | cons p rest ih =>
    obtain ⟨input, outcome⟩ := p
    have hp : ¬ ∀ c ∈ (changeInput s input).inputValue.data, isWhiteSpace c = true :=
      h (input, outcome) (List.mem_cons_self _ _)
    simp only [sendAll]
    rw [ih _ (fun q hq => h q (List.mem_cons_of_mem _ hq)), handleSend_nonblank _ outcome hp]
    simp [changeInput]

theorem turns_sender (sends : List (String × RelayOutcome)) (k : Nat) (m : ChatMessage)
    (h : (sends.flatMap (fun p => [userMessage p.1, assistantMessage p.2]))[k]? = some m) :
    m.sender = if k % 2 = 0 then "User" else "ChatGPT" := by
  induction sends generalizing k with
  | nil => simp at h
  | cons p rest ih =>
    simp only [List.flatMap_cons, List.cons_append, List.nil_append] at h
    match k, h with
    | 0, h =>
      simp only [List.getElem?_cons_zero, Option.some.injEq] at h
      subst h; rfl
    | 1, h =>
      simp only [List.getElem?_cons_succ, List.getElem?_cons_zero, Option.some.injEq] at h
      subst h
      simpa using assistantMessage_sender p.2
    | k + 2, h =>
      simp only [List.getElem?_cons_succ] at h
      have := ih k h
      rw [this]
      have hk : (k + 2) % 2 = k % 2 := by omega
      rw [hk]

/-- C15: after `N` sends with non-blank inputs completed one after the other
from the empty transcript, whatever the relay outcomes, the transcript has
`2 * N` entries, the entries at even positions have sender `User` and those at
odd positions have sender `ChatGPT`, and the transcript after any first part
of the sends is a prefix of the final transcript. -/
theorem sendAll_transcript (sends : List (String × RelayOutcome))
    (h : ∀ p ∈ sends, ¬ ∀ c ∈ p.1.data, isWhiteSpace c = true) :
    (sendAll initial sends).messages.length = 2 * sends.length ∧
    (∀ k m, (sendAll initial sends).messages[k]? = some m →
      m.sender = if k % 2 = 0 then "User" else "ChatGPT") ∧
    (∀ earlier later, sends = earlier ++ later →
      (sendAll initial earlier).messages <+: (sendAll initial sends).messages) := by
  have hmsg := sendAll_messages sends initial h
  have hnil : initial.messages = [] := rfl
  rw [hnil, List.nil_append] at hmsg
  refine ⟨?_, ?_, ?_⟩
  · rw [hmsg]
    clear hmsg h
    induction sends with
    | nil => rfl
    | cons p rest ih =>
      simp only [List.flatMap_cons, List.length_append, List.length_cons, List.length_nil, ih]
      omega
  · intro k m hk
    rw [hmsg] at hk
    exact turns_sender sends k m hk
  · intro earlier later hsplit
    rw [hsplit, sendAll_append]
    exact sendAll_keeps_messages later _

theorem sendAll_transcript_witness :
    (∀ p ∈ [("hi", RelayOutcome.rejected), (" why? ", .response true (.parsed (some "because")))],
      ¬ ∀ c ∈ p.1.data, isWhiteSpace c = true) ∧
    ((sendAll initial
        [("hi", .rejected), (" why? ", .response true (.parsed (some "because")))]).messages.length
      = 2 * [("hi", RelayOutcome.rejected),
          (" why? ", .response true (.parsed (some "because")))].length ∧
    (∀ k m, (sendAll initial
        [("hi", .rejected), (" why? ", .response true (.parsed (some "because")))]).messages[k]?
        = some m →
      m.sender = if k % 2 = 0 then "User" else "ChatGPT") ∧
    (∀ earlier later,
      [("hi", RelayOutcome.rejected), (" why? ", .response true (.parsed (some "because")))] =
        earlier ++ later →
      (sendAll initial earlier).messages <+:
        (sendAll initial
          [("hi", .rejected), (" why? ", .response true (.parsed (some "because")))]).messages)) :=
  ⟨by decide,
   sendAll_transcript [("hi", .rejected), (" why? ", .response true (.parsed (some "because")))]
     (by decide)⟩

end Chat

namespace Chat

/-! ## Sends in flight at the same time -/

theorem settledOutcomes_cons (e : Event) (rest : List Event) :
    settledOutcomes (e :: rest) = settledOutcomes [e] ++ settledOutcomes rest := by
  cases e <;> rfl

/-- What one event adds: the transcript grows at its end by the User message
of a request issued by this event or by the assistant message of a call
settled by it, and the calls in flight are the issued ones not settled. -/
theorem Session.step_adds (σ σ1 : Session) (e : Event) (h : σ.step e = some σ1) :
    ∃ added newIssued,
      σ1.state.messages = σ.state.messages ++ added ∧
      σ1.issued = σ.issued ++ newIssued ∧
      (Multiset.ofList added =
        Multiset.ofList (newIssued.map (fun r => userMessage r.prompt)) +
          Multiset.ofList ((settledOutcomes [e]).map assistantMessage)) ∧
      σ1.inFlight.length + (settledOutcomes [e]).length = σ.inFlight.length + newIssued.length := by
  cases e with
  | typing value =>
    simp only [Session.step, Option.some.injEq] at h; subst h
    exact ⟨[], [], by simp [changeInput], by simp, by simp [settledOutcomes], by simp [settledOutcomes]⟩
  | toggle =>
    simp only [Session.step, Option.some.injEq] at h; subst h
    exact ⟨[], [], by simp [toggleChat], by simp, by simp [settledOutcomes], by simp [settledOutcomes]⟩
  | clickSend =>
    by_cases hb : ∀ c ∈ σ.state.inputValue.data, isWhiteSpace c = true
    · simp only [Session.step, handleSendStart_blank _ hb, Option.some.injEq] at h; subst h
      exact ⟨[], [], by simp, by simp, by simp [settledOutcomes], by simp [settledOutcomes]⟩
    · simp only [Session.step, handleSendStart_nonblank _ hb, Option.some.injEq] at h; subst h
      exact ⟨[userMessage σ.state.inputValue],
        [⟨"http://localhost:5000/chat", "POST", σ.state.inputValue⟩],
        rfl, rfl, by simp [settledOutcomes], by simp [settledOutcomes]⟩
  | settle k outcome =>
    by_cases hk : k < σ.inFlight.length
    · simp only [Session.step, hk, if_true, Option.some.injEq] at h; subst h
      refine ⟨[assistantMessage outcome], [], rfl, by simp, by simp [settledOutcomes], ?_⟩
      simp only [settledOutcomes, List.length_eraseIdx, hk, if_true, List.length_cons,
        List.length_nil]
      omega
    · simp [Session.step, hk] at h

/-- What a sequence of events adds. -/
theorem Session.run_adds (events : List Event) (σ σ1 : Session)
    (h : Session.run σ events = some σ1) :
    ∃ added newIssued,
      σ1.state.messages = σ.state.messages ++ added ∧
      σ1.issued = σ.issued ++ newIssued ∧
      (Multiset.ofList added =
        Multiset.ofList (newIssued.map (fun r => userMessage r.prompt)) +
          Multiset.ofList ((settledOutcomes events).map assistantMessage)) ∧
      σ1.inFlight.length + (settledOutcomes events).length =
        σ.inFlight.length + newIssued.length := by
  induction events generalizing σ with
  | nil =>
    simp only [Session.run, Option.some.injEq] at h; subst h
    exact ⟨[], [], by simp, by simp, by simp [settledOutcomes], by simp [settledOutcomes]⟩
  | cons e rest ih =>
    simp only [Session.run] at h
    cases hstep : σ.step e with
    | none => rw [hstep] at h; simp at h
    | some σ2 =>
      rw [hstep] at h
      obtain ⟨a1, n1, hm1, hi1, hp1, hl1⟩ := Session.step_adds σ σ2 e hstep
      obtain ⟨a2, n2, hm2, hi2, hp2, hl2⟩ := ih σ2 h
      refine ⟨a1 ++ a2, n1 ++ n2, ?_, ?_, ?_, ?_⟩
      · rw [hm2, hm1, List.append_assoc]
      · rw [hi2, hi1, List.append_assoc]
      · rw [settledOutcomes_cons, List.map_append, List.map_append, ← Multiset.coe_add,
          ← Multiset.coe_add, ← Multiset.coe_add, hp1, hp2]
        abel
      · rw [settledOutcomes_cons, List.length_append, List.length_append]
        omega

/-- C16: for every sequence of typing, toggling, clicks on Send and settling
relay calls, the calls settling in any order, that starts with no call in
flight and ends with none in flight: the final transcript is the initial one
followed by exactly two entries per issued request, and these entries are,
each exactly once, the User message of every issued request and the assistant
message of every settled call; as many calls settled as requests were issued. -/
theorem Session.run_no_lost_update (s0 : ChatState) (events : List Event) (σ : Session)
    (h : Session.run ⟨s0, [], []⟩ events = some σ) (hdone : σ.inFlight = []) :
    ∃ added,
      σ.state.messages = s0.messages ++ added ∧
      added.length = 2 * σ.issued.length ∧
      added.Perm (σ.issued.map (fun r => userMessage r.prompt) ++
        (settledOutcomes events).map assistantMessage) ∧
      (settledOutcomes events).length = σ.issued.length := by
  obtain ⟨added, newIssued, hm, hi, hp, hl⟩ := Session.run_adds events _ σ h
  simp only [List.nil_append, List.length_nil, Nat.zero_add] at hi hl
  rw [hdone, List.length_nil, Nat.zero_add] at hl
  rw [← hi] at hp hl
  have hperm : added.Perm (σ.issued.map (fun r => userMessage r.prompt) ++
      (settledOutcomes events).map assistantMessage) := by
    rw [← Multiset.coe_eq_coe, ← Multiset.coe_add]
    exact hp
  refine ⟨added, hm, ?_, hperm, hl⟩
  rw [hperm.length_eq, List.length_append, List.length_map, List.length_map, hl]
  omega

theorem Session.run_no_lost_update_witness :
    (Session.run ⟨initial, [], []⟩ sampleEvents = some sampleSession ∧
      sampleSession.inFlight = []) ∧
    ∃ added,
      sampleSession.state.messages = initial.messages ++ added ∧
      added.length = 2 * sampleSession.issued.length ∧
      added.Perm (sampleSession.issued.map (fun r => userMessage r.prompt) ++
        (settledOutcomes sampleEvents).map assistantMessage) ∧
      (settledOutcomes sampleEvents).length = sampleSession.issued.length :=
  ⟨⟨by decide, rfl⟩,
   Session.run_no_lost_update initial sampleEvents sampleSession (by decide) rfl⟩

end Chat
